import Mathlib

/-!
Verification of the yt-summarizer property-reconciliation core.

The Python source is embedded shallowly: Python values become the `PyVal`
inductive, exceptions become `Except PyErr`, and the dictionary/attribute
operations of the dynamic language are modelled explicitly so that every
raising path of the source is visible in the embedding.
-/

namespace YtSummarizer

/-- Python exception kinds that the embedded code can raise. -/
inductive PyErr where
  | keyError
  | attributeError
  | typeError
  | valueError
  | exception (msg : String)
deriving DecidableEq, Repr

/-- A Python value as handled by the repository: None, bool, int, float,
str, list, dict (string keys, insertion ordered).  Floats are carried by
their `str()` rendering, since no code in scope computes with them. -/
inductive PyVal where
  | none
  | bool (b : Bool)
  | int (n : Int)
  | float (r : String)
  | str (s : String)
  | list (xs : List PyVal)
  | dict (kvs : List (String × PyVal))

/-- First binding of a key in a dict's entry list (Python dict keys are
unique, so first binding is the binding). -/
def dictFind (kvs : List (String × PyVal)) (k : String) : Option PyVal :=
  (kvs.find? (fun kv => kv.1 == k)).map (fun kv => kv.2)

/-- Python `d.get(key, default)`: raises AttributeError when the receiver
is not a dict. -/
def pyGetD (v : PyVal) (k : String) (d : PyVal) : Except PyErr PyVal :=
  match v with
  | .dict kvs => .ok ((dictFind kvs k).getD d)
  | _ => .error .attributeError

/-- Python `d[key]` subscription: KeyError on a dict missing the key,
TypeError on a non-subscriptable receiver. -/
def pyIndex (v : PyVal) (k : String) : Except PyErr PyVal :=
  match v with
  | .dict kvs =>
    match dictFind kvs k with
    | some x => .ok x
    | Option.none => .error .keyError
  | _ => .error .typeError

/-- Python truthiness.  (Float truthiness is approximated through the
carried rendering; no code in scope branches on a float.) -/
def pyTruthy : PyVal → Bool
  | .none => false
  | .bool b => b
  | .int n => n != 0
  | .float r => !(r == "0.0" || r == "-0.0" || r == "0")
  | .str s => !s.isEmpty
  | .list xs => !xs.isEmpty
  | .dict kvs => !kvs.isEmpty

mutual

/-- Python `str()`.  Scalars are rendered exactly; for containers the
element layout is kept but repr quoting of nested strings is elided, which
no code path in scope observes. -/
def pyStr : PyVal → String
  | .none => "None"
  | .bool b => if b then "True" else "False"
  | .int n => toString n
  | .float r => r
  | .str s => s
  | .list xs => "[" ++ String.intercalate ", " (pyStrList xs) ++ "]"
  | .dict kvs => "\x7b" ++ String.intercalate ", " (pyStrKvs kvs) ++ "\x7d"

def pyStrList : List PyVal → List String
  | [] => []
  | x :: xs => pyStr x :: pyStrList xs

def pyStrKvs : List (String × PyVal) → List String
  | [] => []
  | (k, v) :: kvs => (k ++ ": " ++ pyStr v) :: pyStrKvs kvs

end

mutual

/-- Modelled from the library: `json.dumps` on the JSON-serialisable
values above (string escaping elided; every caller in scope serialises
opaque store data whose content no claim inspects). -/
def jsonDumps : PyVal → String
  | .none => "null"
  | .bool b => if b then "true" else "false"
  | .int n => toString n
  | .float r => r
  | .str s => "\"" ++ s ++ "\""
  | .list xs => "[" ++ String.intercalate ", " (jsonDumpsList xs) ++ "]"
  | .dict kvs => "\x7b" ++ String.intercalate ", " (jsonDumpsKvs kvs) ++ "\x7d"

def jsonDumpsList : List PyVal → List String
  | [] => []
  | x :: xs => jsonDumps x :: jsonDumpsList xs

def jsonDumpsKvs : List (String × PyVal) → List String
  | [] => []
  | (k, v) :: kvs => ("\"" ++ k ++ "\": " ++ jsonDumps v) :: jsonDumpsKvs kvs

end

/-- Splitting a character list at every occurrence of a separator
character.  Every split the source performs (on "?", "#", "&", "=", ",")
uses a one-character separator, so this is `str.split(sep)` for those
calls. -/
def splitOnChar (c : Char) : List Char → List (List Char)
  | [] => [[]]
  | x :: xs =>
    let r := splitOnChar c xs
    if x == c then [] :: r
    else
      match r with
      | [] => [[x]]
      | h :: t => (x :: h) :: t

def strSplit (s : String) (c : Char) : List String :=
  (splitOnChar c s.toList).map String.mk

/-- Modelled from the library: Python `str.strip()` with no argument —
leading and trailing whitespace removed. -/
def pyStrip (s : String) : String :=
  String.mk (((s.toList.dropWhile Char.isWhitespace).reverse.dropWhile
    Char.isWhitespace).reverse)

/-- Modelled from the library: Python `str.lower()` (ASCII case folding;
every name the source lowercases is a property name). -/
def strLower (s : String) : String :=
  String.mk (s.toList.map Char.toLower)

/-- The string a value contributes to an `==`-against-string-literal test:
Python `x == "lit"` is False for every non-string `x`, and the empty
string matches no literal used by the source, so collapsing non-strings to
`""` preserves every dispatch in scope. -/
def tagOf : PyVal → String
  | .str s => s
  | _ => ""

/-- Modelled from the library: `s.replace("Z", "+00:00")`, the only string
replacement the source performs (a single-character pattern, so occurrence
scanning is a character map). -/
def replaceZ (s : String) : String :=
  String.mk (s.toList.foldr
    (fun c acc => (if c == 'Z' then "+00:00".toList else [c]) ++ acc) [])

/-- Python `v.replace("Z", "+00:00")` on a value: AttributeError when the
receiver is not a string. -/
def pyStrReplace (v : PyVal) : Except PyErr String :=
  match v with
  | .str s => .ok (replaceZ s)
  | _ => .error .attributeError

/-- Python iteration (`for x in v`): lists yield elements, dicts yield
their keys, strings yield one-character strings; other receivers raise
TypeError. -/
def pyIter : PyVal → Except PyErr (List PyVal)
  | .list xs => .ok xs
  | .dict kvs => .ok (kvs.map (fun kv => .str kv.1))
  | .str s => .ok (s.toList.map (fun c => .str (String.mk [c])))
  | _ => .error .typeError

/-- Python `sep.join(xs)`: TypeError as soon as an element is not a
string. -/
def pyJoin (sep : String) (xs : List PyVal) : Except PyErr String := do
  let ss ← xs.mapM (fun v =>
    match v with
    | .str s => Except.ok s
    | _ => Except.error PyErr.typeError)
  pure (String.intercalate sep ss)

/-- Modelled from the library:
`datetime.fromisoformat(s).isoformat()`.  The model accepts exactly
strings already in canonical ISO-8601 form, `YYYY-MM-DD` optionally
followed by `THH:MM:SS` and an optional `+HH:MM` or `-HH:MM` offset, and
re-emits them unchanged; any other string raises ValueError.  (The claims
under verification depend only on which side of the accept/raise split an
input falls, never on reformatting of accepted inputs.) -/
def isoDatePart : List Char → Bool
  | [y1, y2, y3, y4, '-', m1, m2, '-', d1, d2] =>
    [y1, y2, y3, y4, m1, m2, d1, d2].all Char.isDigit
  | _ => false

def isoTimePart : List Char → Bool
  | [h1, h2, ':', m1, m2, ':', s1, s2] =>
    [h1, h2, m1, m2, s1, s2].all Char.isDigit
  | _ => false

def isoOffsetPart : List Char → Bool
  | [] => true
  | ['+', h1, h2, ':', m1, m2] => [h1, h2, m1, m2].all Char.isDigit
  | ['-', h1, h2, ':', m1, m2] => [h1, h2, m1, m2].all Char.isDigit
  | _ => false

def isoCanonical (s : String) : Bool :=
  let l := s.toList
  if isoDatePart l then true
  else
    isoDatePart (l.take 10) &&
      (match l.drop 10 with
       | 'T' :: rest => isoTimePart (rest.take 8) && isoOffsetPart (rest.drop 8)
       | _ => false)

def fromisoformatIsoformat (s : String) : Except PyErr String :=
  if isoCanonical s then .ok s else .error .valueError

/-- notion.Client._user_to_string. -/
def user_to_string (user : PyVal) : Except PyErr String := do
  let user_id ← pyGetD user "id" (.str "")
  let nameV ← pyGetD user "name" .none
  let name := if pyTruthy nameV then nameV else PyVal.str "Unknown Name"
  pure (pyStr user_id ++ ": " ++ pyStr name)

/-- notion.Client._extract_property_item_value_to_string.  The return
value is a PyVal because the Python function returns property payload
fields unchecked on several branches (`email`, `title`, ...), so the
declared `str` return type is not enforced by the dynamic language. -/
def extract_property_item_value_to_string (property : PyVal) :
    Except PyErr PyVal := do
  let prop_type ← pyGetD property "type" .none
  match tagOf prop_type with
  | "checkbox" => do
    let v ← pyGetD property "checkbox" (.str "")
    pure (.str (pyStr v))
  | "created_by" => do
    let u ← pyGetD property "created_by" (.dict [])
    let s ← user_to_string u
    pure (.str s)
  | "created_time" => do
    let ct ← pyGetD property "created_time" .none
    if pyTruthy ct then do
      let s ← pyStrReplace ct
      let r ← fromisoformatIsoformat s
      pure (.str r)
    else pure (.str "")
  | "date" => do
    let date_obj ← pyGetD property "date" .none
    if pyTruthy date_obj then do
      let startV ← pyIndex date_obj "start"
      let s ← pyStrReplace startV
      let r ← fromisoformatIsoformat s
      pure (.str r)
    else pure (.str "")
  | "email" => do
    let v ← pyGetD property "email" .none
    pure (if pyTruthy v then v else .str "")
  | "url" => do
    let v ← pyGetD property "url" .none
    pure (if pyTruthy v then v else .str "")
  | "number" => do
    let num ← pyGetD property "number" .none
    pure (.str (match num with
      | .int n => pyStr (.int n)
      | .float r => pyStr (.float r)
      | .bool b => pyStr (.bool b)
      | _ => ""))
  | "phone_number" => do
    let v ← pyGetD property "phone_number" .none
    pure (if pyTruthy v then v else .str "")
  | "select" => do
    let select ← pyGetD property "select" .none
    if !pyTruthy select then pure (.str "")
    else do
      let i ← pyGetD select "id" (.str "")
      let n ← pyGetD select "name" (.str "")
      pure (.str (pyStr i ++ " " ++ pyStr n))
  | "multi_select" => do
    let multi_select ← pyGetD property "multi_select" (.list [])
    if !pyTruthy multi_select then pure (.str "")
    else do
      let opts ← pyIter multi_select
      let parts ← opts.mapM (fun opt => do
        let i ← pyGetD opt "id" (.str "")
        let n ← pyGetD opt "name" (.str "")
        pure (pyStr i ++ " " ++ pyStr n))
      pure (.str (String.intercalate ", " parts))
  | "people" => do
    let u ← pyGetD property "people" (.dict [])
    let s ← user_to_string u
    pure (.str s)
  | "last_edited_by" => do
    let u ← pyGetD property "last_edited_by" (.dict [])
    let s ← user_to_string u
    pure (.str s)
  | "last_edited_time" => do
    let let_ ← pyGetD property "last_edited_time" .none
    if pyTruthy let_ then do
      let s ← pyStrReplace let_
      let r ← fromisoformatIsoformat s
      pure (.str r)
    else pure (.str "")
  | "title" => do
    let t ← pyGetD property "title" (.dict [])
    pyGetD t "plain_text" (.str "")
  | "rich_text" => do
    let t ← pyGetD property "rich_text" (.dict [])
    pyGetD t "plain_text" (.str "")
  | "files" => do
    let files ← pyGetD property "files" (.list [])
    let items ← pyIter files
    let names ← items.mapM (fun f => pyGetD f "name" (.str ""))
    let s ← pyJoin ", " names
    pure (.str s)
  | "formula" => do
    let formula ← pyGetD property "formula" (.dict [])
    let ftype ← pyGetD formula "type" .none
    match tagOf ftype with
    | "string" => do
      let v ← pyGetD formula "string" .none
      pure (if pyTruthy v then v else .str "???")
    | "number" => do
      let num ← pyGetD formula "number" .none
      pure (.str (match num with
        | .none => "???"
        | v => pyStr v))
    | "boolean" => do
      let bool_val ← pyGetD formula "boolean" .none
      pure (.str (match bool_val with
        | .none => "???"
        | v => pyStr v))
    | "date" => do
      let date_obj ← pyGetD formula "date" .none
      if pyTruthy date_obj then do
        let startG ← pyGetD date_obj "start" .none
        if pyTruthy startG then do
          let startV ← pyIndex date_obj "start"
          let s ← pyStrReplace startV
          let r ← fromisoformatIsoformat s
          pure (.str r)
        else pure (.str "???")
      else pure (.str "???")
    | _ => pure (.str "???")
  | "rollup" => do
    let rollup ← pyGetD property "rollup" (.dict [])
    let rtype ← pyGetD rollup "type" .none
    match tagOf rtype with
    | "number" => do
      let num ← pyGetD rollup "number" .none
      pure (.str (match num with
        | .none => "???"
        | v => pyStr v))
    | "date" => do
      let date_obj ← pyGetD rollup "date" .none
      if pyTruthy date_obj then do
        let startG ← pyGetD date_obj "start" .none
        if pyTruthy startG then do
          let startV ← pyIndex date_obj "start"
          let s ← pyStrReplace startV
          let r ← fromisoformatIsoformat s
          pure (.str r)
        else pure (.str "???")
      else pure (.str "???")
    | "array" => do
      let arr ← pyGetD rollup "array" (.list [])
      pure (.str (jsonDumps arr))
    | "incomplete" => pure rtype
    | "unsupported" => pure rtype
    | _ => pure (.str "???")
  | "relation" => do
    let relation ← pyGetD property "relation" .none
    if pyTruthy relation then pyGetD relation "id" (.str "???")
    else pure (.str "???")
  | "status" => do
    let st ← pyGetD property "status" (.dict [])
    pyGetD st "name" (.str "")
  | "button" => do
    let bt ← pyGetD property "button" (.dict [])
    pyGetD bt "name" (.str "")
  | "unique_id" => do
    let unique_id ← pyGetD property "unique_id" (.dict [])
    let pfxV ← pyGetD unique_id "prefix" .none
    let numV ← pyGetD unique_id "number" .none
    let pfx := if pyTruthy pfxV then pfxV else PyVal.str ""
    let number := if pyTruthy numV then numV else PyVal.str ""
    pure (.str (pyStr pfx ++ pyStr number))
  | "verification" => do
    let vf ← pyGetD property "verification" (.dict [])
    pyGetD vf "state" (.str "")
  | _ => pure (.str "")

/-- notion.Client._extract_value_to_string. -/
def extract_value_to_string (property : PyVal) : Except PyErr PyVal := do
  let obj ← pyGetD property "object" .none
  if tagOf obj == "property_item" then
    extract_property_item_value_to_string property
  else if tagOf obj == "list" then do
    let results ← pyGetD property "results" (.list [])
    let items ← pyIter results
    let vals ← items.mapM extract_property_item_value_to_string
    let s ← pyJoin ", " vals
    pure (.str s)
  else pure (.str "")

/-- Modelled from the library: Python `int(s)` on an already-stripped
string — optional sign followed by decimal digits (digit-group
underscores elided); anything else raises ValueError, which the caller
catches. -/
def digitsToNat (l : List Char) : Nat :=
  l.foldl (fun a c => a * 10 + (c.toNat - 48)) 0

def pyIntParse (s : String) : Option Int :=
  match s.toList with
  | [] => Option.none
  | '+' :: rest =>
    if !rest.isEmpty && rest.all Char.isDigit then some (digitsToNat rest)
    else Option.none
  | '-' :: rest =>
    if !rest.isEmpty && rest.all Char.isDigit then some (-(digitsToNat rest : Int))
    else Option.none
  | l =>
    if l.all Char.isDigit then some (digitsToNat l) else Option.none

/-- Modelled from the library: Python `float(s)` acceptance for the shapes
the source can pass it (a stripped string containing a dot); the parsed
float is carried by its rendering, which no claim inspects. -/
def pyFloatParse (s : String) : Option String :=
  let body := match s.toList with
    | '+' :: r => r
    | '-' :: r => r
    | r => r
  if body.count '.' == 1 && body.all (fun c => c.isDigit || c == '.') &&
      body.any Char.isDigit then
    some s
  else Option.none

/-- notion.Client._format_property_for_update.  The value argument is a
string (the caller passes entries of a `Dict[str, str]`); the type tag is
a raw schema field, compared against string literals exactly as `==` does
in Python.  A `none` result is the Python `None` ("drop this field"). -/
def format_property_for_update (prop_type : PyVal) (value : String) :
    Option PyVal :=
  if value == "" then Option.none
  else
    let value := pyStrip value
    if value == "" then Option.none
    else
      match tagOf prop_type with
      | "title" =>
        some (.dict [("title", .list [.dict [("text", .dict [("content", .str value)])]])])
      | "rich_text" =>
        some (.dict [("rich_text", .list [.dict [("text", .dict [("content", .str value)])]])])
      | "checkbox" =>
        some (.dict [("checkbox", .bool (["true", "1", "yes", "on"].contains (strLower value)))])
      | "number" =>
        if value.toList.contains '.' then
          match pyFloatParse value with
          | some r => some (.dict [("number", .float r)])
          | Option.none => Option.none
        else
          match pyIntParse value with
          | some n => some (.dict [("number", .int n)])
          | Option.none => Option.none
      | "select" => some (.dict [("select", .dict [("name", .str value)])])
      | "multi_select" =>
        let options := (strSplit value ',').map pyStrip
        some (.dict [("multi_select",
          .list ((options.filter (fun o => o ≠ "")).map
            (fun o => .dict [("name", .str o)])))])
      | "date" => some (.dict [("date", .dict [("start", .str value)])])
      | "url" => some (.dict [("url", .str value)])
      | "email" => some (.dict [("email", .str value)])
      | "phone_number" => some (.dict [("phone_number", .str value)])
      | "status" => some (.dict [("status", .dict [("name", .str value)])])
      | _ => Option.none

/-- External transport boundary of notion.Client: the three notion_client
endpoints update_page_properties touches.  An `.error` result models the
endpoint raising. -/
structure NotionEnv where
  databases_retrieve : String → Except PyErr PyVal
  pages_retrieve : String → Except PyErr PyVal
  pages_update : String → PyVal → Except PyErr PyVal

/-- The dict comprehension
`\x7bname.lower(): name for name in db_properties.keys()\x7d` followed by
`.get`: for duplicate lowercased names the later binding wins. -/
def prop_name_map (keys : List String) (k : String) : Option String :=
  (((keys.map (fun n => (strLower n, n))).reverse.find?
    (fun p => p.1 == k)).map (fun p => p.2))

/-- Python dict assignment `d[k] = v`: overwrite in place when the key
exists, else append. -/
def dictSet (kvs : List (String × PyVal)) (k : String) (v : PyVal) :
    List (String × PyVal) :=
  if kvs.any (fun p => p.1 == k) then
    kvs.map (fun p => if p.1 == k then (k, v) else p)
  else kvs ++ [(k, v)]

/-- The property-formatting loop of update_page_properties over the
supplied name/value pairs: unmatched names are skipped with a warning,
matched values are formatted, absent formats are dropped.  Raises only
when a matched schema entry is not dict-shaped (its `.get("type")`). -/
def formatProperties (kvs : List (String × PyVal))
    (properties : List (String × String)) :
    Except PyErr (List (String × PyVal)) :=
  properties.foldlM
    (fun acc pp =>
      match prop_name_map (kvs.map (fun p => p.1)) (strLower pp.1) with
      | Option.none => pure acc
      | some actual => do
        let config ← pyIndex (.dict kvs) actual
        let prop_type ← pyGetD config "type" .none
        match format_property_for_update prop_type pp.2 with
        | some formatted => pure (dictSet acc actual formatted)
        | Option.none => pure acc)
    []

/-- The schema-resolution try block of update_page_properties: retrieve
the database, read its properties, and fall back to the page's own
properties when that mapping is falsy. -/
def resolve_db_properties (env : NotionEnv) (database_id page_id : String) :
    Except PyErr PyVal := do
  let database ← env.databases_retrieve database_id
  let db_properties ← pyGetD database "properties" (.dict [])
  if !pyTruthy db_properties then do
    let page ← env.pages_retrieve page_id
    pyGetD page "properties" (.dict [])
  else pure db_properties

/-- notion.Client.update_page_properties.  First component: the returned
boolean, or the exception that escapes (only the post-try schema shape
assumptions can raise).  Second component: the transport write attempts
made, in order, as (page_id, payload) pairs. -/
def update_page_properties (env : NotionEnv) (database_id page_id : String)
    (properties : List (String × String)) :
    Except PyErr Bool × List (String × PyVal) :=
  match resolve_db_properties env database_id page_id with
  | .error _ => (.ok false, [])
  | .ok db_properties =>
    match db_properties with
    | .dict kvs =>
      match formatProperties kvs properties with
      | .error e => (.error e, [])
      | .ok formatted_properties =>
        if formatted_properties.isEmpty then (.ok false, [])
        else
          match env.pages_update page_id (.dict formatted_properties) with
          | .ok _ => (.ok true, [(page_id, .dict formatted_properties)])
          | .error _ => (.ok false, [(page_id, .dict formatted_properties)])
    | _ => (.error .attributeError, [])

/-! ## The YouTube client and the reconciliation engine (youtube.py,
model.py, service.py) -/

/-- Modelled from the library: `urlparse(url).query` — the text after the
first question mark, with the fragment (text from the first hash) removed
beforehand. -/
def url_query (url : String) : String :=
  let beforeFrag := (strSplit url '#').headD url
  match strSplit beforeFrag '?' with
  | [] => ""
  | _ :: rest => String.intercalate "?" rest

/-- Modelled from the library: `parse_qs` with its defaults — fields split
on ampersands, each on its first equals sign; fields without a separator
or with a blank value are dropped (keep_blank_values is false); percent
decoding elided.  Values for one key keep query order. -/
def parse_qs (q : String) : List (String × String) :=
  (strSplit q '&').filterMap (fun field =>
    match strSplit field '=' with
    | [] => Option.none
    | [_] => Option.none
    | k :: vs =>
      let v := String.intercalate "=" vs
      if v == "" then Option.none else some (k, v))

/-- youtube.Client.__init__ video-id extraction:
`parse_qs(urlparse(url).query)["v"][0]`.  A `none` result is the KeyError
the subscription raises when no usable "v" field exists. -/
def parse_v_param (url : String) : Option String :=
  ((parse_qs (url_query url)).find? (fun p => p.1 == "v")).map (fun p => p.2)

/-- The remote collaborators of the engine: HTTP page fetch (status flag
as left by raise_for_status, body), og:title extraction from a body
(modelled BeautifulSoup lookup, `none` when the meta tag yields no
title), transcript snippet fetch, and the two LLM calls.  An `.error`
models the collaborator raising. -/
structure ServiceEnv where
  http_get : String → Except PyErr (Bool × String)
  og_title : String → Option String
  fetch_transcript : String → Except PyErr (List String)
  llm_summarize : String → Except PyErr String
  llm_main_points : String → Except PyErr String

/-- youtube.Client.get_video_title: every failure inside the try block
(network error, HTTP error status, markup errors) is caught and replaced
by the sentinel, and a missing og:title tag yields the sentinel without
an exception.  Total: this call never raises. -/
def get_video_title (env : ServiceEnv) (url : String) : String :=
  match env.http_get url with
  | .error _ => "Title not found"
  | .ok (okStatus, body) =>
    if !okStatus then "Title not found"
    else
      match env.og_title body with
      | some t => t
      | Option.none => "Title not found"

/-- youtube.Client.get_video_transcript: snippets joined with spaces; a
fetch failure is logged and re-raised. -/
def get_video_transcript (env : ServiceEnv) (video_id : String) :
    Except PyErr String :=
  match env.fetch_transcript video_id with
  | .ok snippets => .ok (String.intercalate " " snippets)
  | .error e => .error e

/-- model.YouTubeVideo.  Fields the service reads from the store are
`None` or strings, so they are options here; `__init__` sets
`updated = False`. -/
structure YouTubeVideo where
  id : String
  url : String
  title : Option String
  transcript : Option String
  summary : Option String
  main_points : Option String
  updated : Bool

def YouTubeVideo.init (id url : String)
    (title transcript summary main_points : Option String) : YouTubeVideo :=
  ⟨id, url, title, transcript, summary, main_points, false⟩

/-- Python truthiness of a str-or-None field (`if not video.title`). -/
def truthy : Option String → Bool
  | Option.none => false
  | some s => !s.isEmpty

/-- One remote call made while reconciling, with the argument the source
passes. -/
inductive CallEvent where
  | titleCall (url : String)
  | transcriptCall (video_id : String)
  | summarizeCall (text : String)
  | mainPointsCall (text : String)
deriving DecidableEq, Repr

/-- service.get_videos, title block: fetch the title when missing and mark
the record updated. -/
def title_step (env : ServiceEnv) (v : YouTubeVideo) :
    YouTubeVideo × List CallEvent :=
  if !truthy v.title then
    ({ v with title := some (get_video_title env v.url), updated := true },
     [CallEvent.titleCall v.url])
  else (v, [])

/-- service.get_videos, summary block: when the summary is missing, fetch
the transcript, summarize it, mark updated, and leave the fetched
transcript in the local variable (second component) for the next block. -/
def summary_step (env : ServiceEnv) (video_id : String) (v : YouTubeVideo) :
    Except PyErr (YouTubeVideo × Option String) × List CallEvent :=
  if !truthy v.summary then
    match get_video_transcript env video_id with
    | .error e => (.error e, [CallEvent.transcriptCall video_id])
    | .ok t =>
      match env.llm_summarize t with
      | .error e =>
        (.error e, [CallEvent.transcriptCall video_id, CallEvent.summarizeCall t])
      | .ok s =>
        (.ok ({ v with summary := some s, updated := true }, some t),
         [CallEvent.transcriptCall video_id, CallEvent.summarizeCall t])
  else (.ok (v, Option.none), [])

/-- service.get_videos, main-points block: when main points are missing,
reuse the transcript local if the summary block set it, fetch it
otherwise, then extract main points and mark updated. -/
def main_points_step (env : ServiceEnv) (video_id : String)
    (v : YouTubeVideo) (transcript : Option String) :
    Except PyErr YouTubeVideo × List CallEvent :=
  if !truthy v.main_points then
    match transcript with
    | some t =>
      match env.llm_main_points t with
      | .error e => (.error e, [CallEvent.mainPointsCall t])
      | .ok mp =>
        (.ok { v with main_points := some mp, updated := true },
         [CallEvent.mainPointsCall t])
    | Option.none =>
      match get_video_transcript env video_id with
      | .error e => (.error e, [CallEvent.transcriptCall video_id])
      | .ok t =>
        match env.llm_main_points t with
        | .error e =>
          (.error e, [CallEvent.transcriptCall video_id, CallEvent.mainPointsCall t])
        | .ok mp =>
          (.ok { v with main_points := some mp, updated := true },
           [CallEvent.transcriptCall video_id, CallEvent.mainPointsCall t])
  else (.ok v, [])

/-- The per-record body of service.get_videos: construct the YouTube
client (KeyError when the URL has no usable "v" parameter), then the
three blocks in order; collaborator exceptions propagate. -/
def process_video (env : ServiceEnv) (v : YouTubeVideo) :
    Except PyErr YouTubeVideo × List CallEvent :=
  match parse_v_param v.url with
  | Option.none => (.error .keyError, [])
  | some video_id =>
    let tr := title_step env v
    match summary_step env video_id tr.1 with
    | (.error e, log2) => (.error e, tr.2 ++ log2)
    | (.ok (v2, transcript), log2) =>
      let mr := main_points_step env video_id v2 transcript
      (mr.1, tr.2 ++ log2 ++ mr.2)

/-- A store record as the service consumes it: the name-to-string map
produced by get_page_properties_from_database (page properties plus the
"ID" key). -/
abbrev Props := List (String × String)

def propGet (prop : Props) (k : String) : Option String :=
  ((prop.find? (fun p => p.1 == k)).map (fun p => p.2))

/-- service.YouTubeSummarizerService.get_videos over the fetched records:
records without a URL are skipped, every other record is processed in
order, and a record failure aborts the whole run.  The second component
is the full remote-call log. -/
def get_videos (env : ServiceEnv) :
    List Props → Except PyErr (List YouTubeVideo) × List CallEvent
  | [] => (.ok [], [])
  | prop :: rest =>
    if !truthy (propGet prop "URL") then get_videos env rest
    else
      let video0 := YouTubeVideo.init ((propGet prop "ID").getD "")
        ((propGet prop "URL").getD "") (propGet prop "Title")
        (propGet prop "Transcript") (propGet prop "Summary")
        (propGet prop "Main points")
      match process_video env video0 with
      | (.error e, log) => (.error e, log)
      | (.ok v, log) =>
        match get_videos env rest with
        | (.ok vs, log2) => (.ok (v :: vs), log ++ log2)
        | (.error e, log2) => (.error e, log ++ log2)

/-! ## Shape predicates for the read-direction safety statement -/

/-- The type tags with a write path in _format_property_for_update. -/
def supportedWriteTags : List String :=
  ["title", "rich_text", "checkbox", "number", "select", "multi_select",
   "date", "url", "email", "phone_number", "status"]

/-- The type tags the read-direction elif chain dispatches on. -/
def recognizedReadTags : List String :=
  ["checkbox", "created_by", "created_time", "date", "email", "url",
   "number", "phone_number", "select", "multi_select", "people",
   "last_edited_by", "last_edited_time", "title", "rich_text", "files",
   "formula", "rollup", "relation", "status", "button", "unique_id",
   "verification"]

def isDict : PyVal → Bool
  | .dict _ => true
  | _ => false

def isStrVal : PyVal → Bool
  | .str _ => true
  | _ => false

/-- The field, when truthy, is a string (falsy values fall back to a
literal before they are returned). -/
def strWhenTruthy (o : Option PyVal) : Bool :=
  match o with
  | Option.none => true
  | some v => !pyTruthy v || isStrVal v

/-- The field, when present, is a string. -/
def strWhenPresent (o : Option PyVal) : Bool :=
  match o with
  | Option.none => true
  | some v => isStrVal v

/-- The field, when present, is a dict. -/
def dictWhenPresent (o : Option PyVal) : Bool :=
  match o with
  | Option.none => true
  | some v => isDict v

/-- A timestamp field (`created_time`, `last_edited_time`): falsy, or a
string the datetime reparse accepts. -/
def isoWhenTruthy (o : Option PyVal) : Bool :=
  match o with
  | Option.none => true
  | some v =>
    !pyTruthy v ||
      (match v with
       | .str s => isoCanonical (replaceZ s)
       | _ => false)

/-- A `date` property value: falsy, or a dict carrying a parseable
`start` string (the branch subscripts `start` unguarded). -/
def dateValueOk (o : Option PyVal) : Bool :=
  match o with
  | Option.none => true
  | some v =>
    !pyTruthy v ||
      (match v with
       | .dict dkv =>
         match dictFind dkv "start" with
         | some (.str s) => isoCanonical (replaceZ s)
         | _ => false
       | _ => false)

/-- A formula/rollup `date` result: falsy, or a dict whose `start`, when
truthy, is a parseable string (this branch guards `start` itself). -/
def guardedDateOk (dv : PyVal) : Bool :=
  !pyTruthy dv ||
    (match dv with
     | .dict dkv =>
       match dictFind dkv "start" with
       | Option.none => true
       | some sv =>
         !pyTruthy sv ||
           (match sv with
            | .str s => isoCanonical (replaceZ s)
            | _ => false)
     | _ => false)

/-- A wrapper dict (`title`/`rich_text`/`status`/`button`/`verification`)
value: absent, or a dict whose extracted sub-field, when present, is a
string. -/
def wrapperOk (key : String) (o : Option PyVal) : Bool :=
  match o with
  | Option.none => true
  | some (.dict kv) => strWhenPresent (dictFind kv key)
  | some _ => false

def selectOk (o : Option PyVal) : Bool :=
  match o with
  | Option.none => true
  | some v => !pyTruthy v || isDict v

def multiSelectOk (o : Option PyVal) : Bool :=
  match o with
  | Option.none => true
  | some v =>
    !pyTruthy v ||
      (match v with
       | .list l => l.all isDict
       | _ => false)

def filesOk (o : Option PyVal) : Bool :=
  match o with
  | Option.none => true
  | some v =>
    match v with
    | .list l =>
      l.all (fun f =>
        match f with
        | .dict fkv => strWhenPresent (dictFind fkv "name")
        | _ => false)
    | _ => false

def formulaOk (o : Option PyVal) : Bool :=
  match o with
  | Option.none => true
  | some f =>
    match f with
    | .dict fkv =>
      match tagOf ((dictFind fkv "type").getD .none) with
      | "string" => strWhenTruthy (dictFind fkv "string")
      | "date" =>
        (match dictFind fkv "date" with
         | Option.none => true
         | some dv => guardedDateOk dv)
      | _ => true
    | _ => false

def rollupOk (o : Option PyVal) : Bool :=
  match o with
  | Option.none => true
  | some r =>
    match r with
    | .dict rkv =>
      match tagOf ((dictFind rkv "type").getD .none) with
      | "date" =>
        (match dictFind rkv "date" with
         | Option.none => true
         | some dv => guardedDateOk dv)
      | _ => true
    | _ => false

def relationOk (o : Option PyVal) : Bool :=
  match o with
  | Option.none => true
  | some v =>
    !pyTruthy v ||
      (match v with
       | .dict kv => strWhenPresent (dictFind kv "id")
       | _ => false)

/-- A well-formed property item: the dict shapes the store contract
declares for each type tag (the exact preconditions each branch of
_extract_property_item_value_to_string needs in order not to raise and
to return a string). -/
def wf_property_item (property : PyVal) : Bool :=
  match property with
  | .dict kvs =>
    match tagOf ((dictFind kvs "type").getD .none) with
    | "checkbox" => true
    | "created_by" => dictWhenPresent (dictFind kvs "created_by")
    | "created_time" => isoWhenTruthy (dictFind kvs "created_time")
    | "date" => dateValueOk (dictFind kvs "date")
    | "email" => strWhenTruthy (dictFind kvs "email")
    | "url" => strWhenTruthy (dictFind kvs "url")
    | "number" => true
    | "phone_number" => strWhenTruthy (dictFind kvs "phone_number")
    | "select" => selectOk (dictFind kvs "select")
    | "multi_select" => multiSelectOk (dictFind kvs "multi_select")
    | "people" => dictWhenPresent (dictFind kvs "people")
    | "last_edited_by" => dictWhenPresent (dictFind kvs "last_edited_by")
    | "last_edited_time" => isoWhenTruthy (dictFind kvs "last_edited_time")
    | "title" => wrapperOk "plain_text" (dictFind kvs "title")
    | "rich_text" => wrapperOk "plain_text" (dictFind kvs "rich_text")
    | "files" => filesOk (dictFind kvs "files")
    | "formula" => formulaOk (dictFind kvs "formula")
    | "rollup" => rollupOk (dictFind kvs "rollup")
    | "relation" => relationOk (dictFind kvs "relation")
    | "status" => wrapperOk "name" (dictFind kvs "status")
    | "button" => wrapperOk "name" (dictFind kvs "button")
    | "unique_id" => dictWhenPresent (dictFind kvs "unique_id")
    | "verification" => wrapperOk "state" (dictFind kvs "verification")
    | _ => true
  | _ => false

/-- The read conversion completed without an exception and produced a
string. -/
def isOkStr : Except PyErr PyVal → Bool
  | .ok (.str _) => true
  | _ => false

/-- A concrete collaborator environment for evaluating the engine on
closed inputs: every remote call succeeds with a fixed value. -/
def sampleEnv : ServiceEnv where
  http_get := fun _ => .ok (true, "BODY")
  og_title := fun _ => some "T0"
  fetch_transcript := fun _ => .ok ["hello", "world"]
  llm_summarize := fun s => .ok ("S:" ++ s)
  llm_main_points := fun s => .ok ("M:" ++ s)

/-- A concrete store environment whose schema has a single title property
named "Name" and whose write endpoint always raises. -/
def failingNotionEnv : NotionEnv where
  databases_retrieve := fun _ =>
    .ok (.dict [("properties",
      .dict [("Name", .dict [("type", .str "title")])])])
  pages_retrieve := fun _ => .error .keyError
  pages_update := fun _ _ => .error (.exception "transport down")

/-- A collaborator environment where every remote call fails. -/
def failEnv : ServiceEnv where
  http_get := fun _ => .error (.exception "net down")
  og_title := fun _ => Option.none
  fetch_transcript := fun _ => .error (.exception "no transcript")
  llm_summarize := fun _ => .error (.exception "llm error")
  llm_main_points := fun _ => .error (.exception "llm error")

/-- A collaborator environment where fetches succeed but both LLM calls
fail. -/
def llmFailEnv : ServiceEnv where
  http_get := fun _ => .ok (true, "BODY")
  og_title := fun _ => some "T0"
  fetch_transcript := fun _ => .ok ["hello"]
  llm_summarize := fun _ => .error (.exception "llm error")
  llm_main_points := fun _ => .error (.exception "llm error")

/-- The transcript-fetch arguments recorded in a call log. -/
def transcriptCalls (log : List CallEvent) : List String :=
  log.filterMap (fun e =>
    match e with
    | .transcriptCall vid => some vid
    | _ => Option.none)

/-- The summarize arguments recorded in a call log. -/
def summarizeCalls (log : List CallEvent) : List String :=
  log.filterMap (fun e =>
    match e with
    | .summarizeCall t => some t
    | _ => Option.none)

/-- The main-points arguments recorded in a call log. -/
def mainPointsCalls (log : List CallEvent) : List String :=
  log.filterMap (fun e =>
    match e with
    | .mainPointsCall t => some t
    | _ => Option.none)

/-! ## Helper lemmas -/

theorem ok_bind {α β ε : Type} (a : α) (f : α → Except ε β) :
    Bind.bind (Except.ok a) f = f a := rfl

theorem error_bind {α β ε : Type} (e : ε) (f : α → Except ε β) :
    Bind.bind (Except.error e : Except ε α) f = Except.error e := rfl

theorem title_step_fields (env : ServiceEnv) (v : YouTubeVideo) :
    (title_step env v).1.id = v.id ∧
    (title_step env v).1.url = v.url ∧
    (title_step env v).1.summary = v.summary ∧
    (title_step env v).1.main_points = v.main_points := by
  unfold title_step
  split <;> simp

theorem title_step_updated (env : ServiceEnv) (v : YouTubeVideo) :
    (title_step env v).1.updated = (v.updated || !truthy v.title) := by
  unfold title_step
  split <;> simp_all

theorem title_step_log (env : ServiceEnv) (v : YouTubeVideo) :
    (title_step env v).2 =
      if truthy v.title then [] else [CallEvent.titleCall v.url] := by
  unfold title_step
  split <;> simp_all

theorem title_step_of_truthy (env : ServiceEnv) (v : YouTubeVideo)
    (h : truthy v.title = true) : title_step env v = (v, []) := by
  unfold title_step
  simp [h]

theorem summary_step_of_truthy (env : ServiceEnv) (vid : String)
    (v : YouTubeVideo) (h : truthy v.summary = true) :
    summary_step env vid v = (.ok (v, Option.none), []) := by
  unfold summary_step
  simp [h]

theorem summary_step_of_missing_ok (env : ServiceEnv) (vid : String)
    (v : YouTubeVideo) (t s : String) (h : truthy v.summary = false)
    (ht : get_video_transcript env vid = .ok t)
    (hs : env.llm_summarize t = .ok s) :
    summary_step env vid v =
      (.ok ({ v with summary := some s, updated := true }, some t),
       [CallEvent.transcriptCall vid, CallEvent.summarizeCall t]) := by
  unfold summary_step
  simp [h, ht, hs]

theorem summary_step_fetch_err (env : ServiceEnv) (vid : String)
    (v : YouTubeVideo) (e : PyErr) (h : truthy v.summary = false)
    (ht : get_video_transcript env vid = .error e) :
    summary_step env vid v = (.error e, [CallEvent.transcriptCall vid]) := by
  unfold summary_step
  simp [h, ht]

theorem summary_step_llm_err (env : ServiceEnv) (vid : String)
    (v : YouTubeVideo) (t : String) (e : PyErr)
    (h : truthy v.summary = false)
    (ht : get_video_transcript env vid = .ok t)
    (hs : env.llm_summarize t = .error e) :
    summary_step env vid v =
      (.error e, [CallEvent.transcriptCall vid, CallEvent.summarizeCall t]) := by
  unfold summary_step
  simp [h, ht, hs]

theorem main_points_step_of_truthy (env : ServiceEnv) (vid : String)
    (v : YouTubeVideo) (tr : Option String)
    (h : truthy v.main_points = true) :
    main_points_step env vid v tr = (.ok v, []) := by
  unfold main_points_step
  simp [h]

theorem main_points_step_reuse_ok (env : ServiceEnv) (vid : String)
    (v : YouTubeVideo) (t mp : String) (h : truthy v.main_points = false)
    (hm : env.llm_main_points t = .ok mp) :
    main_points_step env vid v (some t) =
      (.ok { v with main_points := some mp, updated := true },
       [CallEvent.mainPointsCall t]) := by
  unfold main_points_step
  simp [h, hm]

theorem main_points_step_fetch_ok (env : ServiceEnv) (vid : String)
    (v : YouTubeVideo) (t mp : String) (h : truthy v.main_points = false)
    (ht : get_video_transcript env vid = .ok t)
    (hm : env.llm_main_points t = .ok mp) :
    main_points_step env vid v Option.none =
      (.ok { v with main_points := some mp, updated := true },
       [CallEvent.transcriptCall vid, CallEvent.mainPointsCall t]) := by
  unfold main_points_step
  simp [h, ht, hm]

theorem main_points_step_fetch_err (env : ServiceEnv) (vid : String)
    (v : YouTubeVideo) (e : PyErr) (h : truthy v.main_points = false)
    (ht : get_video_transcript env vid = .error e) :
    main_points_step env vid v Option.none =
      (.error e, [CallEvent.transcriptCall vid]) := by
  unfold main_points_step
  simp [h, ht]

theorem main_points_step_fetch_llm_err (env : ServiceEnv) (vid : String)
    (v : YouTubeVideo) (t : String) (e : PyErr)
    (h : truthy v.main_points = false)
    (ht : get_video_transcript env vid = .ok t)
    (hm : env.llm_main_points t = .error e) :
    main_points_step env vid v Option.none =
      (.error e, [CallEvent.transcriptCall vid, CallEvent.mainPointsCall t]) := by
  unfold main_points_step
  simp [h, ht, hm]

theorem main_points_step_llm_err (env : ServiceEnv) (vid : String)
    (v : YouTubeVideo) (t : String) (e : PyErr)
    (h : truthy v.main_points = false)
    (hm : env.llm_main_points t = .error e) :
    main_points_step env vid v (some t) =
      (.error e, [CallEvent.mainPointsCall t]) := by
  unfold main_points_step
  simp [h, hm]

theorem transcriptCalls_append (a b : List CallEvent) :
    transcriptCalls (a ++ b) = transcriptCalls a ++ transcriptCalls b := by
  simp [transcriptCalls]

theorem summarizeCalls_append (a b : List CallEvent) :
    summarizeCalls (a ++ b) = summarizeCalls a ++ summarizeCalls b := by
  simp [summarizeCalls]

theorem mainPointsCalls_append (a b : List CallEvent) :
    mainPointsCalls (a ++ b) = mainPointsCalls a ++ mainPointsCalls b := by
  simp [mainPointsCalls]

theorem title_step_calls (env : ServiceEnv) (v : YouTubeVideo) :
    transcriptCalls (title_step env v).2 = [] ∧
    summarizeCalls (title_step env v).2 = [] ∧
    mainPointsCalls (title_step env v).2 = [] := by
  unfold title_step
  split <;> simp [transcriptCalls, summarizeCalls, mainPointsCalls]

theorem process_video_eq (env : ServiceEnv) (v : YouTubeVideo) (vid : String)
    (hvid : parse_v_param v.url = some vid) :
    process_video env v =
      (match summary_step env vid (title_step env v).1 with
       | (.error e, log2) => (.error e, (title_step env v).2 ++ log2)
       | (.ok (v2, transcript), log2) =>
         ((main_points_step env vid v2 transcript).1,
          (title_step env v).2 ++ log2 ++
            (main_points_step env vid v2 transcript).2)) := by
  unfold process_video
  rw [hvid]

theorem summary_step_ok_inv (env : ServiceEnv) (vid : String)
    (v v2 : YouTubeVideo) (tr : Option String) (log : List CallEvent)
    (h : summary_step env vid v = (.ok (v2, tr), log)) :
    v2.id = v.id ∧ v2.url = v.url ∧ v2.title = v.title ∧
    v2.main_points = v.main_points ∧
    v2.updated = (v.updated || !truthy v.summary) := by
  cases hs : truthy v.summary with
  | true =>
    rw [summary_step_of_truthy env vid v hs] at h
    simp only [Prod.mk.injEq, Except.ok.injEq] at h
    obtain ⟨⟨rfl, -⟩, -⟩ := h
    simp
  | false =>
    cases hft : get_video_transcript env vid with
    | error e =>
      rw [summary_step_fetch_err env vid v e hs hft] at h
      simp at h
    | ok t =>
      cases hsm : env.llm_summarize t with
      | error e =>
        rw [summary_step_llm_err env vid v t e hs hft hsm] at h
        simp at h
      | ok s =>
        rw [summary_step_of_missing_ok env vid v t s hs hft hsm] at h
        simp only [Prod.mk.injEq, Except.ok.injEq] at h
        obtain ⟨⟨rfl, -⟩, -⟩ := h
        simp

theorem main_points_step_ok_inv (env : ServiceEnv) (vid : String)
    (v v' : YouTubeVideo) (tr : Option String) (log : List CallEvent)
    (h : main_points_step env vid v tr = (.ok v', log)) :
    v'.id = v.id ∧ v'.url = v.url ∧ v'.title = v.title ∧
    v'.summary = v.summary ∧
    v'.updated = (v.updated || !truthy v.main_points) := by
  cases hm : truthy v.main_points with
  | true =>
    rw [main_points_step_of_truthy env vid v tr hm] at h
    simp only [Prod.mk.injEq, Except.ok.injEq] at h
    obtain ⟨rfl, -⟩ := h
    simp
  | false =>
    cases tr with
    | some t =>
      cases hlm : env.llm_main_points t with
      | error e =>
        rw [main_points_step_llm_err env vid v t e hm hlm] at h
        simp at h
      | ok mp =>
        rw [main_points_step_reuse_ok env vid v t mp hm hlm] at h
        simp only [Prod.mk.injEq, Except.ok.injEq] at h
        obtain ⟨rfl, -⟩ := h
        simp
    | none =>
      cases hft : get_video_transcript env vid with
      | error e =>
        rw [main_points_step_fetch_err env vid v e hm hft] at h
        simp at h
      | ok t =>
        cases hlm : env.llm_main_points t with
        | error e =>
          rw [main_points_step_fetch_llm_err env vid v t e hm hft hlm] at h
          simp at h
        | ok mp =>
          rw [main_points_step_fetch_ok env vid v t mp hm hft hlm] at h
          simp only [Prod.mk.injEq, Except.ok.injEq] at h
          obtain ⟨rfl, -⟩ := h
          simp

theorem process_video_ok_inv (env : ServiceEnv) (v : YouTubeVideo)
    (vid : String) (v' : YouTubeVideo) (log : List CallEvent)
    (hvid : parse_v_param v.url = some vid)
    (h : process_video env v = (.ok v', log)) :
    v'.id = v.id ∧ v'.url = v.url ∧
    v'.updated =
      (v.updated || !truthy v.title || !truthy v.summary ||
        !truthy v.main_points) := by
  rw [process_video_eq env v vid hvid] at h
  obtain ⟨hid, hurl, hsum, hmp⟩ := title_step_fields env v
  rcases hss : summary_step env vid (title_step env v).1 with ⟨r2, log2⟩
  rw [hss] at h
  cases r2 with
  | error e => simp at h
  | ok p =>
    rcases p with ⟨v2, tr⟩
    simp only [Prod.mk.injEq] at h
    obtain ⟨h1, -⟩ := h
    rcases hmm : main_points_step env vid v2 tr with ⟨r3, log3⟩
    rw [hmm] at h1
    cases r3 with
    | error e => simp at h1
    | ok v3 =>
      simp only [Except.ok.injEq] at h1
      obtain rfl := h1
      obtain ⟨i2, u2, t2, m2, up2⟩ :=
        summary_step_ok_inv env vid _ v2 tr log2 hss
      obtain ⟨i3, u3, t3, s3, up3⟩ :=
        main_points_step_ok_inv env vid v2 v3 tr log3 hmm
      refine ⟨by rw [i3, i2, hid], by rw [u3, u2, hurl], ?_⟩
      rw [up3, up2, m2, hmp, hsum, title_step_updated]

/-! ## Claim theorems -/

/-- C9: for every boolean value of a checkbox property in the read
direction, the conversion returns exactly the capitalized literal word
"True" or "False". -/
theorem checkbox_reads_True_False (kvs : List (String × PyVal)) (b : Bool)
    (htype : dictFind kvs "type" = some (.str "checkbox"))
    (hval : dictFind kvs "checkbox" = some (.bool b)) :
    extract_property_item_value_to_string (.dict kvs) =
      .ok (.str (if b then "True" else "False")) := by
  unfold extract_property_item_value_to_string
  simp [pyGetD, htype, hval, ok_bind, tagOf, pyStr]

theorem checkbox_reads_True_False_witness :
    extract_property_item_value_to_string
        (.dict [("type", .str "checkbox"), ("checkbox", .bool true)]) =
      .ok (.str "True") ∧
    extract_property_item_value_to_string
        (.dict [("type", .str "checkbox"), ("checkbox", .bool false)]) =
      .ok (.str "False") :=
  ⟨checkbox_reads_True_False _ true rfl rfl,
   checkbox_reads_True_False _ false rfl rfl⟩

/-- C8: a formula-date or rollup-date with an absent date value or a
missing/empty start component reads as the sentinel "???", while a plain
date property with an absent value reads as the empty string; the two
missing encodings are distinct. -/
theorem date_missing_sentinel_asymmetry (e : PyVal) :
    extract_property_item_value_to_string
        (.dict [("type", .str "formula"),
          ("formula", .dict [("type", .str "date")])]) = .ok (.str "???") ∧
    extract_property_item_value_to_string
        (.dict [("type", .str "formula"),
          ("formula", .dict [("type", .str "date"),
            ("date", .dict [("end", e)])])]) = .ok (.str "???") ∧
    extract_property_item_value_to_string
        (.dict [("type", .str "formula"),
          ("formula", .dict [("type", .str "date"),
            ("date", .dict [("start", PyVal.none)])])]) = .ok (.str "???") ∧
    extract_property_item_value_to_string
        (.dict [("type", .str "rollup"),
          ("rollup", .dict [("type", .str "date")])]) = .ok (.str "???") ∧
    extract_property_item_value_to_string
        (.dict [("type", .str "rollup"),
          ("rollup", .dict [("type", .str "date"),
            ("date", .dict [("end", e)])])]) = .ok (.str "???") ∧
    extract_property_item_value_to_string
        (.dict [("type", .str "rollup"),
          ("rollup", .dict [("type", .str "date"),
            ("date", .dict [("start", PyVal.none)])])]) = .ok (.str "???") ∧
    extract_property_item_value_to_string
        (.dict [("type", .str "date")]) = .ok (.str "") ∧
    extract_property_item_value_to_string
        (.dict [("type", .str "date"), ("date", PyVal.none)]) = .ok (.str "") ∧
    "???" ≠ "" :=
  ⟨rfl, rfl, rfl, rfl, rfl, rfl, rfl, rfl, by decide⟩

/-- C6: the write-direction formatter yields absent for every type tag
when the value is empty or whitespace-only, and yields absent for every
type tag outside the supported write set regardless of the value. -/
theorem format_empty_or_unsupported_absent :
    (∀ (t : PyVal) (v : String), pyStrip v = "" →
      format_property_for_update t v = Option.none) ∧
    (∀ (t v : String), t ∉ supportedWriteTags →
      format_property_for_update (.str t) v = Option.none) := by
  constructor
  · intro t v h
    by_cases hv : v = ""
    · simp [format_property_for_update, hv]
    · simp [format_property_for_update, hv, h]
  · intro t v ht
    by_cases hv : v = ""
    · simp [format_property_for_update, hv]
    · by_cases hs : pyStrip v = ""
      · simp [format_property_for_update, hv, hs]
      · simp only [format_property_for_update, hv, hs, if_false, beq_iff_eq]
        simp only [supportedWriteTags, List.mem_cons, List.not_mem_nil,
          or_false] at ht
        push_neg at ht
        obtain ⟨h1, h2, h3, h4, h5, h6, h7, h8, h9, h10, h11⟩ := ht
        simp [tagOf, h1, h2, h3, h4, h5, h6, h7, h8, h9, h10, h11]

theorem format_empty_or_unsupported_absent_witness :
    format_property_for_update (.str "checkbox") "   " = Option.none ∧
    format_property_for_update (.str "unsupported_type") "value" =
      Option.none :=
  ⟨format_empty_or_unsupported_absent.1 (.str "checkbox") "   " rfl,
   format_empty_or_unsupported_absent.2 "unsupported_type" "value"
     (by decide)⟩

/-- C2: for one record, the transcript is fetched at most once.  Both
summary and keyPoints missing: one fetch, and the same transcript value
goes to both LLM calls.  Only keyPoints missing: one fetch, one keyPoints
call, no summarize call.  Both present: no fetch at all. -/
theorem transcript_fetched_once (env : ServiceEnv) (v : YouTubeVideo)
    (vid : String) (hvid : parse_v_param v.url = some vid) :
    (∀ v' log, truthy v.summary = false → truthy v.main_points = false →
      process_video env v = (.ok v', log) →
      ∃ t, get_video_transcript env vid = .ok t ∧
        transcriptCalls log = [vid] ∧ summarizeCalls log = [t] ∧
        mainPointsCalls log = [t]) ∧
    (∀ v' log, truthy v.summary = true → truthy v.main_points = false →
      process_video env v = (.ok v', log) →
      ∃ t, get_video_transcript env vid = .ok t ∧
        transcriptCalls log = [vid] ∧ summarizeCalls log = [] ∧
        mainPointsCalls log = [t]) ∧
    (truthy v.summary = true → truthy v.main_points = true →
      ∃ log, process_video env v = (.ok (title_step env v).1, log) ∧
        transcriptCalls log = [] ∧ summarizeCalls log = [] ∧
        mainPointsCalls log = []) := by
  obtain ⟨hid, hurl, hsum, hmp⟩ := title_step_fields env v
  obtain ⟨hct, hcs, hcm⟩ := title_step_calls env v
  refine ⟨?_, ?_, ?_⟩
  · intro v' log hs hm hok
    rw [process_video_eq env v vid hvid] at hok
    cases hft : get_video_transcript env vid with
    | error e =>
      rw [summary_step_fetch_err env vid _ e (by rw [hsum]; exact hs) hft]
        at hok
      simp at hok
    | ok t =>
      cases hsm : env.llm_summarize t with
      | error e =>
        rw [summary_step_llm_err env vid _ t e (by rw [hsum]; exact hs)
          hft hsm] at hok
        simp at hok
      | ok s =>
        rw [summary_step_of_missing_ok env vid _ t s (by rw [hsum]; exact hs)
          hft hsm] at hok
        simp only [] at hok
        cases hlm : env.llm_main_points t with
        | error e =>
          rw [main_points_step_llm_err env vid _ t e (by simp [hmp, hm])
            hlm] at hok
          simp at hok
        | ok mp =>
          rw [main_points_step_reuse_ok env vid _ t mp (by simp [hmp, hm])
            hlm] at hok
          simp only [Prod.mk.injEq] at hok
          obtain ⟨-, rfl⟩ := hok
          refine ⟨t, rfl, ?_, ?_, ?_⟩
          · rw [transcriptCalls_append, transcriptCalls_append, hct]
            rfl
          · rw [summarizeCalls_append, summarizeCalls_append, hcs]
            rfl
          · rw [mainPointsCalls_append, mainPointsCalls_append, hcm]
            rfl
  · intro v' log hs hm hok
    rw [process_video_eq env v vid hvid] at hok
    rw [summary_step_of_truthy env vid _ (by rw [hsum]; exact hs)] at hok
    simp only [] at hok
    cases hft : get_video_transcript env vid with
    | error e =>
      rw [main_points_step_fetch_err env vid _ e (by rw [hmp]; exact hm)
        hft] at hok
      simp at hok
    | ok t =>
      cases hlm : env.llm_main_points t with
      | error e =>
        rw [main_points_step_fetch_llm_err env vid _ t e
          (by rw [hmp]; exact hm) hft hlm] at hok
        simp at hok
      | ok mp =>
        rw [main_points_step_fetch_ok env vid _ t mp (by rw [hmp]; exact hm)
          hft hlm] at hok
        simp only [Prod.mk.injEq] at hok
        obtain ⟨-, rfl⟩ := hok
        refine ⟨t, rfl, ?_, ?_, ?_⟩
        · rw [transcriptCalls_append, transcriptCalls_append, hct]
          rfl
        · rw [summarizeCalls_append, summarizeCalls_append, hcs]
          rfl
        · rw [mainPointsCalls_append, mainPointsCalls_append, hcm]
          rfl
  · intro hs hm
    rw [process_video_eq env v vid hvid]
    rw [summary_step_of_truthy env vid _ (by rw [hsum]; exact hs)]
    simp only []
    rw [main_points_step_of_truthy env vid _ _ (by rw [hmp]; exact hm)]
    refine ⟨(title_step env v).2 ++ [] ++ [], rfl, ?_, ?_, ?_⟩
    · rw [transcriptCalls_append, transcriptCalls_append, hct]
      rfl
    · rw [summarizeCalls_append, summarizeCalls_append, hcs]
      rfl
    · rw [mainPointsCalls_append, mainPointsCalls_append, hcm]
      rfl

theorem transcript_fetched_once_witness :
    (∃ t, get_video_transcript
        sampleEnv "abc" = .ok t ∧
      transcriptCalls (process_video
        sampleEnv
        (YouTubeVideo.init "p1" "https://y/watch?v=abc" (some "T")
          Option.none Option.none Option.none)).2 = ["abc"] ∧
      summarizeCalls (process_video
        sampleEnv
        (YouTubeVideo.init "p1" "https://y/watch?v=abc" (some "T")
          Option.none Option.none Option.none)).2 = [t] ∧
      mainPointsCalls (process_video
        sampleEnv
        (YouTubeVideo.init "p1" "https://y/watch?v=abc" (some "T")
          Option.none Option.none Option.none)).2 = [t]) := by
  have h := (transcript_fetched_once sampleEnv
    (YouTubeVideo.init "p1" "https://y/watch?v=abc" (some "T")
      Option.none Option.none Option.none) "abc" rfl).1
  exact h _ _ rfl rfl rfl

/-- C3: the dirty flag is false at construction, and after a successful
reconciliation of a record it is true exactly when at least one of title,
summary, main points was missing in the store data; a record with all
three present is returned unchanged with an empty call log. -/
theorem dirty_iff_field_missing (env : ServiceEnv) (v : YouTubeVideo)
    (vid : String) (hvid : parse_v_param v.url = some vid)
    (hu : v.updated = false) :
    (∀ id url t tr s m, (YouTubeVideo.init id url t tr s m).updated = false) ∧
    (∀ v' log, process_video env v = (.ok v', log) →
      (v'.updated = true ↔
        (truthy v.title = false ∨ truthy v.summary = false ∨
          truthy v.main_points = false))) ∧
    (truthy v.title = true → truthy v.summary = true →
      truthy v.main_points = true →
      process_video env v = (.ok v, [])) := by
  refine ⟨fun id url t tr s m => rfl, ?_, ?_⟩
  · intro v' log h
    obtain ⟨-, -, hup⟩ := process_video_ok_inv env v vid v' log hvid h
    rw [hup, hu]
    simp [Bool.or_eq_true, Bool.not_eq_true', or_assoc]
  · intro ht hs hm
    rw [process_video_eq env v vid hvid, title_step_of_truthy env v ht]
    simp only []
    rw [summary_step_of_truthy env vid v hs]
    simp only []
    rw [main_points_step_of_truthy env vid v Option.none hm]
    rfl

theorem dirty_iff_field_missing_witness :
    process_video
      sampleEnv
      (YouTubeVideo.init "p1" "https://y/watch?v=abc" (some "T") Option.none
        (some "S") (some "M")) =
    (.ok (YouTubeVideo.init "p1" "https://y/watch?v=abc" (some "T")
      Option.none (some "S") (some "M")), []) :=
  (dirty_iff_field_missing sampleEnv
    (YouTubeVideo.init "p1" "https://y/watch?v=abc" (some "T") Option.none
      (some "S") (some "M")) "abc" rfl rfl).2.2 rfl rfl rfl

/-- C4: a successful reconciliation returns exactly the input records
with a truthy URL, in input order (matched here by id and url, the fields
copied from the record). -/
theorem result_order_filtered (env : ServiceEnv) (records : List Props)
    (vids : List YouTubeVideo) (log : List CallEvent)
    (h : get_videos env records = (.ok vids, log)) :
    vids.map (fun v => (v.id, v.url)) =
      (records.filter (fun p => truthy (propGet p "URL"))).map
        (fun p => ((propGet p "ID").getD "", (propGet p "URL").getD "")) := by
  induction records generalizing vids log with
  | nil =>
    unfold get_videos at h
    simp only [Prod.mk.injEq] at h
    obtain ⟨h1, -⟩ := h
    simp only [Except.ok.injEq] at h1
    subst h1
    rfl
  | cons prop rest ih =>
    unfold get_videos at h
    cases hurl : truthy (propGet prop "URL") with
    | true =>
      simp only [hurl, Bool.not_true, if_false] at h
      rcases hp : process_video env (YouTubeVideo.init
        ((propGet prop "ID").getD "") ((propGet prop "URL").getD "")
        (propGet prop "Title") (propGet prop "Transcript")
        (propGet prop "Summary") (propGet prop "Main points"))
        with ⟨r, plog⟩
      rw [hp] at h
      cases r with
      | error e => simp at h
      | ok vres =>
        rcases hr : get_videos env rest with ⟨r2, log2⟩
        rw [hr] at h
        cases r2 with
        | error e => simp at h
        | ok vs =>
          simp only [Prod.mk.injEq, Except.ok.injEq] at h
          obtain ⟨rfl, -⟩ := h
          cases hpv : parse_v_param (YouTubeVideo.init
            ((propGet prop "ID").getD "") ((propGet prop "URL").getD "")
            (propGet prop "Title") (propGet prop "Transcript")
            (propGet prop "Summary") (propGet prop "Main points")).url with
          | none =>
            rw [show process_video env (YouTubeVideo.init
              ((propGet prop "ID").getD "") ((propGet prop "URL").getD "")
              (propGet prop "Title") (propGet prop "Transcript")
              (propGet prop "Summary") (propGet prop "Main points")) =
                (.error .keyError, []) from by
              unfold process_video; rw [hpv]] at hp
            simp at hp
          | some vid =>
            obtain ⟨hi, hu, -⟩ := process_video_ok_inv env _ vid vres plog
              hpv hp
            simp only [List.filter_cons, hurl, if_true, List.map_cons]
            rw [hi, hu, ih _ _ hr]
            rfl
    | false =>
      simp only [hurl, Bool.not_false, if_true] at h
      have hf : List.filter (fun p => truthy (propGet p "URL")) (prop :: rest) =
          List.filter (fun p => truthy (propGet p "URL")) rest := by
        simp [List.filter_cons, hurl]
      rw [hf]
      exact ih _ _ h

theorem result_order_filtered_witness :
    ([⟨"p1", "https://y/watch?v=abc", some "T", Option.none, some "S",
        some "M", false⟩] : List YouTubeVideo).map
      (fun v => (v.id, v.url)) =
    (([[("ID", "p0")], [("ID", "p1"), ("URL", "https://y/watch?v=abc"),
        ("Title", "T"), ("Summary", "S"), ("Main points", "M")]] :
      List Props).filter (fun p => truthy (propGet p "URL"))).map
      (fun p => ((propGet p "ID").getD "", (propGet p "URL").getD "")) :=
  result_order_filtered sampleEnv
    [[("ID", "p0")], [("ID", "p1"), ("URL", "https://y/watch?v=abc"),
      ("Title", "T"), ("Summary", "S"), ("Main points", "M")]]
    _ _ rfl

/-- C10: the YouTube client is constructed before any missing-field
check, so a record whose URL lacks a usable "v" query parameter makes the
whole run abort with a KeyError even when title, summary and main points
are all already populated. -/
theorem client_init_before_field_checks_aborts (env : ServiceEnv)
    (prop : Props) (rest : List Props) (url : String)
    (hurl : propGet prop "URL" = some url)
    (htruthy : truthy (propGet prop "URL") = true)
    (hv : parse_v_param url = Option.none)
    (ht : truthy (propGet prop "Title") = true)
    (hs : truthy (propGet prop "Summary") = true)
    (hm : truthy (propGet prop "Main points") = true) :
    get_videos env (prop :: rest) = (.error .keyError, []) := by
  unfold get_videos
  simp only [htruthy, Bool.not_true, if_false]
  rw [show process_video env (YouTubeVideo.init
      ((propGet prop "ID").getD "") ((propGet prop "URL").getD "")
      (propGet prop "Title") (propGet prop "Transcript")
      (propGet prop "Summary") (propGet prop "Main points")) =
        (.error .keyError, []) from by
    unfold process_video
    rw [show (YouTubeVideo.init ((propGet prop "ID").getD "")
      ((propGet prop "URL").getD "") (propGet prop "Title")
      (propGet prop "Transcript") (propGet prop "Summary")
      (propGet prop "Main points")).url = url from by rw [hurl]; rfl, hv]]
  rfl

theorem client_init_before_field_checks_aborts_witness :
    get_videos
      sampleEnv
      [[("ID", "p1"), ("URL", "https://y/watch?x=1"), ("Title", "T"),
        ("Summary", "S"), ("Main points", "M")],
       [("ID", "p2"), ("URL", "https://y/watch?v=abc")]] =
      (.error .keyError, []) :=
  client_init_before_field_checks_aborts sampleEnv _ _ "https://y/watch?x=1"
    rfl rfl rfl rfl rfl rfl

/-- C7: a title-fetch failure is caught and degrades to the sentinel
"Title not found" (the record still completes and is marked dirty), while
failures of the transcript fetch or of either LLM call propagate and
abort the whole run with no per-record catch. -/
theorem title_degrades_others_propagate (env : ServiceEnv)
    (v : YouTubeVideo) (vid url t : String) (e : PyErr)
    (hvid : parse_v_param v.url = some vid) :
    (env.http_get url = .error e →
      get_video_title env url = "Title not found") ∧
    (∀ body, env.http_get url = .ok (false, body) →
      get_video_title env url = "Title not found") ∧
    (∀ body, env.http_get url = .ok (true, body) →
      env.og_title body = Option.none →
      get_video_title env url = "Title not found") ∧
    (truthy v.title = false → truthy v.summary = true →
      truthy v.main_points = true → env.http_get v.url = .error e →
      process_video env v =
        (.ok { v with title := some "Title not found", updated := true },
         [CallEvent.titleCall v.url])) ∧
    (truthy v.title = true → truthy v.summary = false →
      get_video_transcript env vid = .error e →
      process_video env v = (.error e, [CallEvent.transcriptCall vid])) ∧
    (truthy v.title = true → truthy v.summary = false →
      get_video_transcript env vid = .ok t → env.llm_summarize t = .error e →
      process_video env v =
        (.error e, [CallEvent.transcriptCall vid,
          CallEvent.summarizeCall t])) ∧
    (truthy v.title = true → truthy v.summary = true →
      truthy v.main_points = false → get_video_transcript env vid = .ok t →
      env.llm_main_points t = .error e →
      process_video env v =
        (.error e, [CallEvent.transcriptCall vid,
          CallEvent.mainPointsCall t])) ∧
    (∀ prop rest log,
      truthy (propGet prop "URL") = true →
      process_video env (YouTubeVideo.init ((propGet prop "ID").getD "")
        ((propGet prop "URL").getD "") (propGet prop "Title")
        (propGet prop "Transcript") (propGet prop "Summary")
        (propGet prop "Main points")) = (.error e, log) →
      get_videos env (prop :: rest) = (.error e, log)) := by
  refine ⟨?_, ?_, ?_, ?_, ?_, ?_, ?_, ?_⟩
  · intro herr
    unfold get_video_title
    rw [herr]
  · intro body hok
    unfold get_video_title
    rw [hok]
    rfl
  · intro body hok hnone
    unfold get_video_title
    rw [hok]
    simp [hnone]
  · intro htm hs hm herr
    have htitle : get_video_title env v.url = "Title not found" := by
      unfold get_video_title
      rw [herr]
    have hts : title_step env v =
        ({ v with title := some "Title not found", updated := true },
         [CallEvent.titleCall v.url]) := by
      unfold title_step
      rw [htm]
      simp [htitle]
    rw [process_video_eq env v vid hvid, hts]
    simp only []
    rw [summary_step_of_truthy env vid _ (by simp only []; exact hs)]
    simp only []
    rw [main_points_step_of_truthy env vid _ Option.none
      (by simp only []; exact hm)]
    rfl
  · intro ht hs hferr
    rw [process_video_eq env v vid hvid, title_step_of_truthy env v ht]
    simp only []
    rw [summary_step_fetch_err env vid v e hs hferr]
    rfl
  · intro ht hs hft hsm
    rw [process_video_eq env v vid hvid, title_step_of_truthy env v ht]
    simp only []
    rw [summary_step_llm_err env vid v t e hs hft hsm]
    rfl
  · intro ht hs hm hft hlm
    rw [process_video_eq env v vid hvid, title_step_of_truthy env v ht]
    simp only []
    rw [summary_step_of_truthy env vid v hs]
    simp only []
    rw [main_points_step_fetch_llm_err env vid v t e hm hft hlm]
    rfl
  · intro prop rest log hurl hperr
    unfold get_videos
    simp only [hurl, Bool.not_true, if_false]
    rw [hperr]
    rfl

theorem title_degrades_others_propagate_witness :
    get_video_title failEnv "https://y/watch?v=abc" = "Title not found" ∧
    process_video failEnv
      (YouTubeVideo.init "p1" "https://y/watch?v=abc" Option.none
        Option.none (some "S") (some "M")) =
      (.ok { id := "p1", url := "https://y/watch?v=abc",
             title := some "Title not found", transcript := Option.none,
             summary := some "S", main_points := some "M",
             updated := true },
       [CallEvent.titleCall "https://y/watch?v=abc"]) ∧
    process_video failEnv
      (YouTubeVideo.init "p1" "https://y/watch?v=abc" (some "T")
        Option.none Option.none (some "M")) =
      (.error (.exception "no transcript"),
       [CallEvent.transcriptCall "abc"]) ∧
    process_video llmFailEnv
      (YouTubeVideo.init "p1" "https://y/watch?v=abc" (some "T")
        Option.none Option.none (some "M")) =
      (.error (.exception "llm error"),
       [CallEvent.transcriptCall "abc", CallEvent.summarizeCall "hello"]) ∧
    process_video llmFailEnv
      (YouTubeVideo.init "p1" "https://y/watch?v=abc" (some "T")
        Option.none (some "S") Option.none) =
      (.error (.exception "llm error"),
       [CallEvent.transcriptCall "abc",
        CallEvent.mainPointsCall "hello"]) ∧
    get_videos failEnv
      [[("ID", "p1"), ("URL", "https://y/watch?v=abc"), ("Title", "T")],
       [("ID", "p2"), ("URL", "https://y/watch?v=def")]] =
      (.error (.exception "no transcript"),
       [CallEvent.transcriptCall "abc"]) := by
  have h1 := title_degrades_others_propagate failEnv
    (YouTubeVideo.init "p1" "https://y/watch?v=abc" Option.none
      Option.none (some "S") (some "M")) "abc" "https://y/watch?v=abc"
    "t" (.exception "net down") rfl
  have h2 := title_degrades_others_propagate failEnv
    (YouTubeVideo.init "p1" "https://y/watch?v=abc" (some "T")
      Option.none Option.none (some "M")) "abc" "https://y/watch?v=abc"
    "t" (.exception "no transcript") rfl
  have h3 := title_degrades_others_propagate llmFailEnv
    (YouTubeVideo.init "p1" "https://y/watch?v=abc" (some "T")
      Option.none Option.none (some "M")) "abc" "https://y/watch?v=abc"
    "hello" (.exception "llm error") rfl
  have h4 := title_degrades_others_propagate llmFailEnv
    (YouTubeVideo.init "p1" "https://y/watch?v=abc" (some "T")
      Option.none (some "S") Option.none) "abc" "https://y/watch?v=abc"
    "hello" (.exception "llm error") rfl
  have h5 := title_degrades_others_propagate failEnv
    (YouTubeVideo.init "p1" "https://y/watch?v=abc" (some "T")
      Option.none Option.none Option.none) "abc" "https://y/watch?v=abc"
    "t" (.exception "no transcript") rfl
  refine ⟨h1.1 rfl, h1.2.2.2.1 rfl rfl rfl rfl,
    h2.2.2.2.2.1 rfl rfl rfl, h3.2.2.2.2.2.1 rfl rfl rfl rfl,
    h4.2.2.2.2.2.2.1 rfl rfl rfl rfl rfl, ?_⟩
  exact h5.2.2.2.2.2.2.2
    [("ID", "p1"), ("URL", "https://y/watch?v=abc"), ("Title", "T")]
    [[("ID", "p2"), ("URL", "https://y/watch?v=def")]]
    [CallEvent.transcriptCall "abc"] rfl
    (h5.2.2.2.2.1 rfl rfl rfl)

/-- C5: under the store contract (the schema fetch returns a record whose
properties field is a non-empty dict), writeProperties returns a boolean:
when the formatted payload set is empty it returns false without any
transport write attempt, and when the transport write itself raises the
exception is swallowed and false is returned. -/
theorem update_page_properties_failure_semantics (env : NotionEnv)
    (database_id page_id : String) (properties : List (String × String))
    (dbv : PyVal) (kvs fp : List (String × PyVal))
    (hdb : env.databases_retrieve database_id = .ok dbv)
    (hprops : pyGetD dbv "properties" (.dict []) = .ok (.dict kvs))
    (hne : kvs ≠ [])
    (hfmt : formatProperties kvs properties = .ok fp) :
    (fp = [] → update_page_properties env database_id page_id properties =
      (.ok false, [])) ∧
    (∀ e, fp ≠ [] → env.pages_update page_id (.dict fp) = .error e →
      update_page_properties env database_id page_id properties =
        (.ok false, [(page_id, .dict fp)])) ∧
    (∀ r, fp ≠ [] → env.pages_update page_id (.dict fp) = .ok r →
      update_page_properties env database_id page_id properties =
        (.ok true, [(page_id, .dict fp)])) := by
  have hres : resolve_db_properties env database_id page_id =
      .ok (.dict kvs) := by
    unfold resolve_db_properties
    simp only [hdb, ok_bind, hprops]
    cases kvs with
    | nil => exact absurd rfl hne
    | cons a l => rfl
  refine ⟨?_, ?_, ?_⟩
  · intro hempty
    subst hempty
    unfold update_page_properties
    rw [hres]
    simp only []
    rw [hfmt]
    rfl
  · intro e hfp hupd
    unfold update_page_properties
    rw [hres]
    simp only []
    rw [hfmt]
    simp only []
    cases fp with
    | nil => exact absurd rfl hfp
    | cons a l =>
      simp only [List.isEmpty_cons, if_false, Bool.false_eq_true]
      rw [hupd]
  · intro r hfp hupd
    unfold update_page_properties
    rw [hres]
    simp only []
    rw [hfmt]
    simp only []
    cases fp with
    | nil => exact absurd rfl hfp
    | cons a l =>
      simp only [List.isEmpty_cons, if_false, Bool.false_eq_true]
      rw [hupd]

theorem update_page_properties_failure_semantics_witness :
    update_page_properties failingNotionEnv "db" "pg" [("missing", "x")] =
      (.ok false, []) ∧
    update_page_properties failingNotionEnv "db" "pg" [("name", "hello")] =
      (.ok false,
       [("pg", .dict [("Name", .dict [("title",
          .list [.dict [("text", .dict [("content", .str "hello")])]])])])]) := by
  have h1 := update_page_properties_failure_semantics failingNotionEnv
    "db" "pg" [("missing", "x")]
    (.dict [("properties", .dict [("Name", .dict [("type", .str "title")])])])
    [("Name", .dict [("type", .str "title")])] [] rfl rfl
    (List.cons_ne_nil _ _) rfl
  have h2 := update_page_properties_failure_semantics failingNotionEnv
    "db" "pg" [("name", "hello")]
    (.dict [("properties", .dict [("Name", .dict [("type", .str "title")])])])
    [("Name", .dict [("type", .str "title")])]
    [("Name", .dict [("title",
      .list [.dict [("text", .dict [("content", .str "hello")])]])])]
    rfl rfl (List.cons_ne_nil _ _) rfl
  exact ⟨h1.1 rfl,
    h2.2.1 (.exception "transport down") (List.cons_ne_nil _ _) rfl⟩

theorem tagOf_eq (v : PyVal) (s : String) (h : tagOf v = s) (hs : s ≠ "") :
    v = .str s := by
  cases v with
  | str s2 => simp only [tagOf] at h; rw [h]
  | none => simp only [tagOf] at h; exact absurd h.symm hs
  | bool b => simp only [tagOf] at h; exact absurd h.symm hs
  | int n => simp only [tagOf] at h; exact absurd h.symm hs
  | float r => simp only [tagOf] at h; exact absurd h.symm hs
  | list xs => simp only [tagOf] at h; exact absurd h.symm hs
  | dict kv => simp only [tagOf] at h; exact absurd h.symm hs

theorem mapM_loop_ok_pred {α β : Type} (f : α → Except PyErr β)
    (P : β → Bool) :
    ∀ (l : List α), (∀ x ∈ l, ∃ y, f x = Except.ok y ∧ P y = true) →
    ∀ acc, acc.all P = true →
    ∃ ys, List.mapM.loop f l acc = Except.ok ys ∧ ys.all P = true := by
  intro l
  induction l with
  | nil =>
    intro _ acc hacc
    exact ⟨acc.reverse, rfl, by simpa using hacc⟩
  | cons a l ih =>
    intro hf acc hacc
    obtain ⟨y, hy, hPy⟩ := hf a (by simp)
    obtain ⟨ys, hys, hPys⟩ := ih
      (fun x hx => hf x (by simp [hx])) (y :: acc)
      (by simp [hPy, hacc])
    refine ⟨ys, ?_, hPys⟩
    show Bind.bind (f a) (fun x => List.mapM.loop f l (x :: acc)) =
      Except.ok ys
    rw [hy, ok_bind]
    exact hys

theorem except_mapM_ok_pred {α β : Type} (f : α → Except PyErr β)
    (P : β → Bool) (l : List α)
    (hf : ∀ x ∈ l, ∃ y, f x = Except.ok y ∧ P y = true) :
    ∃ ys, l.mapM f = Except.ok ys ∧ ys.all P = true := by
  obtain ⟨ys, h, hP⟩ := mapM_loop_ok_pred f P l hf [] rfl
  exact ⟨ys, h, hP⟩

theorem pyJoin_ok (sep : String) (xs : List PyVal)
    (hxs : xs.all isStrVal = true) : ∃ s, pyJoin sep xs = .ok s := by
  obtain ⟨ss, hss, -⟩ := except_mapM_ok_pred
    (fun v =>
      match v with
      | PyVal.str s => Except.ok s
      | _ => Except.error PyErr.typeError)
    (fun _ => true) xs
    (by
      intro x hx
      have hs : isStrVal x = true := by
        rw [List.all_eq_true] at hxs
        exact hxs x hx
      cases x with
      | str s => exact ⟨s, rfl, rfl⟩
      | none => simp [isStrVal] at hs
      | bool b => simp [isStrVal] at hs
      | int n => simp [isStrVal] at hs
      | float r => simp [isStrVal] at hs
      | list ys => simp [isStrVal] at hs
      | dict kv => simp [isStrVal] at hs)
  refine ⟨String.intercalate sep ss, ?_⟩
  show Bind.bind (xs.mapM (fun v =>
    match v with
    | PyVal.str s => Except.ok s
    | _ => Except.error PyErr.typeError))
    (fun ss => pure (String.intercalate sep ss)) = _
  rw [hss, ok_bind]
  rfl

/-- The multi_select branch tail never raises: every option is a dict,
so each f-string formats and the join succeeds. -/
theorem multi_select_body_ok (l : List PyVal) (hl : l.all isDict = true) :
    isOkStr (Bind.bind (l.mapM (fun opt => do
      let i ← pyGetD opt "id" (.str "")
      let n ← pyGetD opt "name" (.str "")
      pure (pyStr i ++ " " ++ pyStr n)))
      (fun parts => pure (PyVal.str (String.intercalate ", " parts)))) =
    true := by
  obtain ⟨parts, hp, -⟩ := except_mapM_ok_pred
    (fun opt => do
      let i ← pyGetD opt "id" (.str "")
      let n ← pyGetD opt "name" (.str "")
      pure (pyStr i ++ " " ++ pyStr n))
    (fun _ => true) l
    (by
      intro x hx
      have hd : isDict x = true := by
        rw [List.all_eq_true] at hl
        exact hl x hx
      cases x with
      | dict kv => exact ⟨_, rfl, rfl⟩
      | none => simp [isDict] at hd
      | bool b => simp [isDict] at hd
      | int n => simp [isDict] at hd
      | float r => simp [isDict] at hd
      | str s => simp [isDict] at hd
      | list ys => simp [isDict] at hd)
  rw [hp, ok_bind]
  rfl

/-- The files branch tail never raises: every file is a dict whose name,
when present, is a string, so the name extraction and the join succeed. -/
theorem files_body_ok (l : List PyVal)
    (hl : l.all (fun f =>
      match f with
      | PyVal.dict fkv => strWhenPresent (dictFind fkv "name")
      | _ => false) = true) :
    isOkStr (Bind.bind (l.mapM (fun f => pyGetD f "name" (.str "")))
      (fun names => Bind.bind (pyJoin ", " names)
        (fun s => pure (PyVal.str s)))) = true := by
  obtain ⟨names, hn, hstr⟩ := except_mapM_ok_pred
    (fun f => pyGetD f "name" (.str "")) isStrVal l
    (by
      intro x hx
      have hd := by
        rw [List.all_eq_true] at hl
        exact hl x hx
      cases x with
      | dict fkv =>
        refine ⟨(dictFind fkv "name").getD (.str ""), rfl, ?_⟩
        cases hnm : dictFind fkv "name" with
        | none => rfl
        | some y =>
          simp only [] at hd
          rw [hnm] at hd
          simp only [strWhenPresent] at hd
          cases y <;> simp_all [isStrVal]
      | none => simp at hd
      | bool b => simp at hd
      | int n => simp at hd
      | float r => simp at hd
      | str s => simp at hd
      | list ys => simp at hd)
  rw [hn, ok_bind]
  obtain ⟨s, hs⟩ := pyJoin_ok ", " names hstr
  rw [hs, ok_bind]
  rfl

/-- C1 counterexample: the claim "the read conversion never raises for
every value shape" is false — a date property whose value object lacks
the start key hits an unguarded subscription and raises KeyError. -/
theorem extract_date_missing_start_raises :
    extract_property_item_value_to_string
      (.dict [("type", .str "date"),
        ("date", .dict [("end", .str "2024-01-02")])]) =
    .error .keyError := rfl

/-- C1 (amended): for every property item that is well-formed per the
store contract, the read conversion raises no exception and returns a
string; and a property whose type tag is any string outside the
recognized set converts to the empty string. -/
theorem extract_wf_total_string :
    (∀ p, wf_property_item p = true →
      isOkStr (extract_property_item_value_to_string p) = true) ∧
    (∀ kvs tag, dictFind kvs "type" = some (.str tag) →
      tag ∉ recognizedReadTags →
      extract_property_item_value_to_string (.dict kvs) =
        .ok (.str "")) := by
  constructor
  · intro p h
    cases p with
    | none => simp [wf_property_item] at h
    | bool b => simp [wf_property_item] at h
    | int n => simp [wf_property_item] at h
    | float r => simp [wf_property_item] at h
    | str s => simp [wf_property_item] at h
    | list xs => simp [wf_property_item] at h
    | dict kvs =>
      unfold wf_property_item at h
      simp only [] at h
      unfold extract_property_item_value_to_string
      simp only [pyGetD, ok_bind]
      split
      -- checkbox
      · rfl
      -- created_by
      · rename_i heq
        rw [heq] at h
        simp only [] at h
        cases hf : dictFind kvs "created_by" with
        | none => rfl
        | some u =>
          rw [hf] at h
          simp only [dictWhenPresent] at h
          cases u with
          | dict ukv => rfl
          | none => simp [isDict] at h
          | bool b => simp [isDict] at h
          | int n => simp [isDict] at h
          | float r => simp [isDict] at h
          | str s => simp [isDict] at h
          | list ys => simp [isDict] at h
      -- created_time
      · rename_i heq
        rw [heq] at h
        simp only [] at h
        cases hf : dictFind kvs "created_time" with
        | none => rfl
        | some ct =>
          rw [hf] at h
          simp only [isoWhenTruthy] at h
          simp only [Option.getD_some]
          cases hct : pyTruthy ct with
          | false => rfl
          | true =>
            rw [hct] at h
            simp only [Bool.not_true, Bool.false_or] at h
            cases ct with
            | str s =>
              simp only [] at h
              simp [pyStrReplace, fromisoformatIsoformat, h, ok_bind,
                isOkStr]
            | none => simp at h
            | bool b => simp at h
            | int n => simp at h
            | float r => simp at h
            | list ys => simp at h
            | dict kv => simp at h
      -- date
      · rename_i heq
        rw [heq] at h
        simp only [] at h
        cases hf : dictFind kvs "date" with
        | none => rfl
        | some d =>
          rw [hf] at h
          simp only [dateValueOk] at h
          simp only [Option.getD_some]
          cases hd : pyTruthy d with
          | false => rfl
          | true =>
            rw [hd] at h
            simp only [Bool.not_true, Bool.false_or] at h
            cases d with
            | dict dkv =>
              simp only [] at h
              cases hst : dictFind dkv "start" with
              | none => rw [hst] at h; simp at h
              | some sv =>
                rw [hst] at h
                cases sv with
                | str s =>
                  simp only [] at h
                  simp [pyIndex, hst, pyStrReplace,
                    fromisoformatIsoformat, h, ok_bind, isOkStr]
                | none => simp at h
                | bool b => simp at h
                | int n => simp at h
                | float r => simp at h
                | list ys => simp at h
                | dict kv2 => simp at h
            | none => simp at h
            | bool b => simp at h
            | int n => simp at h
            | float r => simp at h
            | str s => simp at h
            | list ys => simp at h
      -- email
      · rename_i heq
        rw [heq] at h
        simp only [] at h
        cases hf : dictFind kvs "email" with
        | none => rfl
        | some v =>
          rw [hf] at h
          simp only [strWhenTruthy] at h
          simp only [Option.getD_some]
          cases hv : pyTruthy v with
          | false => rfl
          | true =>
            rw [hv] at h
            simp only [Bool.not_true, Bool.false_or] at h
            cases v with
            | str s => rfl
            | none => simp [isStrVal] at h
            | bool b => simp [isStrVal] at h
            | int n => simp [isStrVal] at h
            | float r => simp [isStrVal] at h
            | list ys => simp [isStrVal] at h
            | dict kv => simp [isStrVal] at h
      -- url
      · rename_i heq
        rw [heq] at h
        simp only [] at h
        cases hf : dictFind kvs "url" with
        | none => rfl
        | some v =>
          rw [hf] at h
          simp only [strWhenTruthy] at h
          simp only [Option.getD_some]
          cases hv : pyTruthy v with
          | false => rfl
          | true =>
            rw [hv] at h
            simp only [Bool.not_true, Bool.false_or] at h
            cases v with
            | str s => rfl
            | none => simp [isStrVal] at h
            | bool b => simp [isStrVal] at h
            | int n => simp [isStrVal] at h
            | float r => simp [isStrVal] at h
            | list ys => simp [isStrVal] at h
            | dict kv => simp [isStrVal] at h
      -- number
      · rfl
      -- phone_number
      · rename_i heq
        rw [heq] at h
        simp only [] at h
        cases hf : dictFind kvs "phone_number" with
        | none => rfl
        | some v =>
          rw [hf] at h
          simp only [strWhenTruthy] at h
          simp only [Option.getD_some]
          cases hv : pyTruthy v with
          | false => rfl
          | true =>
            rw [hv] at h
            simp only [Bool.not_true, Bool.false_or] at h
            cases v with
            | str s => rfl
            | none => simp [isStrVal] at h
            | bool b => simp [isStrVal] at h
            | int n => simp [isStrVal] at h
            | float r => simp [isStrVal] at h
            | list ys => simp [isStrVal] at h
            | dict kv => simp [isStrVal] at h
      -- select
      · rename_i heq
        rw [heq] at h
        simp only [] at h
        cases hf : dictFind kvs "select" with
        | none => rfl
        | some sel =>
          rw [hf] at h
          simp only [selectOk] at h
          simp only [Option.getD_some]
          cases hsel : pyTruthy sel with
          | false => rfl
          | true =>
            rw [hsel] at h
            simp only [Bool.not_true, Bool.false_or] at h
            cases sel with
            | dict skv => simp [pyGetD, ok_bind, isOkStr]
            | none => simp [isDict] at h
            | bool b => simp [isDict] at h
            | int n => simp [isDict] at h
            | float r => simp [isDict] at h
            | str s => simp [isDict] at h
            | list ys => simp [isDict] at h
      -- multi_select
      · rename_i heq
        rw [heq] at h
        simp only [] at h
        cases hf : dictFind kvs "multi_select" with
        | none => rfl
        | some ms =>
          rw [hf] at h
          simp only [multiSelectOk] at h
          simp only [Option.getD_some]
          cases hms : pyTruthy ms with
          | false => rfl
          | true =>
            rw [hms] at h
            simp only [Bool.not_true, Bool.false_or] at h
            cases ms with
            | list l =>
              simp only [] at h
              exact multi_select_body_ok l h
            | none => simp at h
            | bool b => simp at h
            | int n => simp at h
            | float r => simp at h
            | str s => simp at h
            | dict kv => simp at h
      -- people
      · rename_i heq
        rw [heq] at h
        simp only [] at h
        cases hf : dictFind kvs "people" with
        | none => rfl
        | some u =>
          rw [hf] at h
          simp only [dictWhenPresent] at h
          cases u with
          | dict ukv => rfl
          | none => simp [isDict] at h
          | bool b => simp [isDict] at h
          | int n => simp [isDict] at h
          | float r => simp [isDict] at h
          | str s => simp [isDict] at h
          | list ys => simp [isDict] at h
      -- last_edited_by
      · rename_i heq
        rw [heq] at h
        simp only [] at h
        cases hf : dictFind kvs "last_edited_by" with
        | none => rfl
        | some u =>
          rw [hf] at h
          simp only [dictWhenPresent] at h
          cases u with
          | dict ukv => rfl
          | none => simp [isDict] at h
          | bool b => simp [isDict] at h
          | int n => simp [isDict] at h
          | float r => simp [isDict] at h
          | str s => simp [isDict] at h
          | list ys => simp [isDict] at h
      -- last_edited_time
      · rename_i heq
        rw [heq] at h
        simp only [] at h
        cases hf : dictFind kvs "last_edited_time" with
        | none => rfl
        | some lt =>
          rw [hf] at h
          simp only [isoWhenTruthy] at h
          simp only [Option.getD_some]
          cases hlt : pyTruthy lt with
          | false => rfl
          | true =>
            rw [hlt] at h
            simp only [Bool.not_true, Bool.false_or] at h
            cases lt with
            | str s =>
              simp only [] at h
              simp [pyStrReplace, fromisoformatIsoformat, h, ok_bind,
                isOkStr]
            | none => simp at h
            | bool b => simp at h
            | int n => simp at h
            | float r => simp at h
            | list ys => simp at h
            | dict kv => simp at h
      -- title
      · rename_i heq
        rw [heq] at h
        simp only [] at h
        cases hf : dictFind kvs "title" with
        | none => rfl
        | some w =>
          rw [hf] at h
          cases w with
          | dict wkv =>
            simp only [wrapperOk] at h
            simp only [Option.getD_some, pyGetD]
            cases hp : dictFind wkv "plain_text" with
            | none => rfl
            | some x =>
              rw [hp] at h
              simp only [strWhenPresent] at h
              cases x with
              | str s => rfl
              | none => simp [isStrVal] at h
              | bool b => simp [isStrVal] at h
              | int n => simp [isStrVal] at h
              | float r => simp [isStrVal] at h
              | list ys => simp [isStrVal] at h
              | dict kv => simp [isStrVal] at h
          | none => simp [wrapperOk] at h
          | bool b => simp [wrapperOk] at h
          | int n => simp [wrapperOk] at h
          | float r => simp [wrapperOk] at h
          | str s => simp [wrapperOk] at h
          | list ys => simp [wrapperOk] at h
      -- rich_text
      · rename_i heq
        rw [heq] at h
        simp only [] at h
        cases hf : dictFind kvs "rich_text" with
        | none => rfl
        | some w =>
          rw [hf] at h
          cases w with
          | dict wkv =>
            simp only [wrapperOk] at h
            simp only [Option.getD_some, pyGetD]
            cases hp : dictFind wkv "plain_text" with
            | none => rfl
            | some x =>
              rw [hp] at h
              simp only [strWhenPresent] at h
              cases x with
              | str s => rfl
              | none => simp [isStrVal] at h
              | bool b => simp [isStrVal] at h
              | int n => simp [isStrVal] at h
              | float r => simp [isStrVal] at h
              | list ys => simp [isStrVal] at h
              | dict kv => simp [isStrVal] at h
          | none => simp [wrapperOk] at h
          | bool b => simp [wrapperOk] at h
          | int n => simp [wrapperOk] at h
          | float r => simp [wrapperOk] at h
          | str s => simp [wrapperOk] at h
          | list ys => simp [wrapperOk] at h
      -- files
      · rename_i heq
        rw [heq] at h
        simp only [] at h
        cases hf : dictFind kvs "files" with
        | none => rfl
        | some fsv =>
          rw [hf] at h
          simp only [filesOk] at h
          simp only [Option.getD_some]
          cases fsv with
          | list l => exact files_body_ok l h
          | none => simp at h
          | bool b => simp at h
          | int n => simp at h
          | float r => simp at h
          | str s => simp at h
          | dict kv => simp at h
      -- formula
      · rename_i heq
        rw [heq] at h
        simp only [] at h
        cases hf : dictFind kvs "formula" with
        | none => rfl
        | some f =>
          rw [hf] at h
          cases f with
          | dict fkv =>
            simp only [formulaOk] at h
            simp only [Option.getD_some, pyGetD, ok_bind]
            split
            -- string
            · rename_i hft
              rw [hft] at h
              simp only [] at h
              cases hs : dictFind fkv "string" with
              | none => rfl
              | some v =>
                rw [hs] at h
                simp only [strWhenTruthy] at h
                simp only [Option.getD_some]
                cases hv : pyTruthy v with
                | false => rfl
                | true =>
                  rw [hv] at h
                  simp only [Bool.not_true, Bool.false_or] at h
                  cases v with
                  | str s => rfl
                  | none => simp [isStrVal] at h
                  | bool b => simp [isStrVal] at h
                  | int n => simp [isStrVal] at h
                  | float r => simp [isStrVal] at h
                  | list ys => simp [isStrVal] at h
                  | dict kv => simp [isStrVal] at h
            -- number
            · rfl
            -- boolean
            · rfl
            -- date
            · rename_i hft
              rw [hft] at h
              simp only [] at h
              cases hdv : dictFind fkv "date" with
              | none => rfl
              | some dv =>
                rw [hdv] at h
                simp only [] at h
                simp only [Option.getD_some]
                cases hd : pyTruthy dv with
                | false => rfl
                | true =>
                  simp only [guardedDateOk, hd, Bool.not_true,
                    Bool.false_or] at h
                  cases dv with
                  | dict dkv =>
                    simp only [] at h
                    simp only [pyGetD, ok_bind]
                    cases hst : dictFind dkv "start" with
                    | none => rfl
                    | some sv =>
                      rw [hst] at h
                      simp only [] at h
                      simp only [Option.getD_some]
                      by_cases hsv : pyTruthy sv = true
                      · rw [hsv] at h
                        simp only [Bool.not_true, Bool.false_or] at h
                        cases sv with
                        | str s =>
                          simp only [] at h
                          simp [hsv, pyIndex, hst, pyStrReplace,
                            fromisoformatIsoformat, h, ok_bind, isOkStr]
                        | none => simp [pyTruthy] at hsv
                        | bool b => simp at h
                        | int n => simp at h
                        | float r => simp at h
                        | list ys => simp at h
                        | dict kv2 => simp at h
                      · simp [hsv]
                        rfl
                  | none => simp at h
                  | bool b => simp at h
                  | int n => simp at h
                  | float r => simp at h
                  | str s => simp at h
                  | list ys => simp at h
            -- default
            · rfl
          | none => simp [formulaOk] at h
          | bool b => simp [formulaOk] at h
          | int n => simp [formulaOk] at h
          | float r => simp [formulaOk] at h
          | str s => simp [formulaOk] at h
          | list ys => simp [formulaOk] at h
      -- rollup
      · rename_i heq
        rw [heq] at h
        simp only [] at h
        cases hf : dictFind kvs "rollup" with
        | none => rfl
        | some r0 =>
          rw [hf] at h
          cases r0 with
          | dict rkv =>
            simp only [rollupOk] at h
            simp only [Option.getD_some, pyGetD, ok_bind]
            split
            -- number
            · rfl
            -- date
            · rename_i hft
              rw [hft] at h
              simp only [] at h
              cases hdv : dictFind rkv "date" with
              | none => rfl
              | some dv =>
                rw [hdv] at h
                simp only [] at h
                simp only [Option.getD_some]
                cases hd : pyTruthy dv with
                | false => rfl
                | true =>
                  simp only [guardedDateOk, hd, Bool.not_true,
                    Bool.false_or] at h
                  cases dv with
                  | dict dkv =>
                    simp only [] at h
                    simp only [pyGetD, ok_bind]
                    cases hst : dictFind dkv "start" with
                    | none => rfl
                    | some sv =>
                      rw [hst] at h
                      simp only [] at h
                      simp only [Option.getD_some]
                      by_cases hsv : pyTruthy sv = true
                      · rw [hsv] at h
                        simp only [Bool.not_true, Bool.false_or] at h
                        cases sv with
                        | str s =>
                          simp only [] at h
                          simp [hsv, pyIndex, hst, pyStrReplace,
                            fromisoformatIsoformat, h, ok_bind, isOkStr]
                        | none => simp [pyTruthy] at hsv
                        | bool b => simp at h
                        | int n => simp at h
                        | float r => simp at h
                        | list ys => simp at h
                        | dict kv2 => simp at h
                      · simp [hsv]
                        rfl
                  | none => simp at h
                  | bool b => simp at h
                  | int n => simp at h
                  | float r => simp at h
                  | str s => simp at h
                  | list ys => simp at h
            -- array
            · rfl
            -- incomplete
            · rename_i hft
              rw [tagOf_eq _ _ hft (by decide)]
              rfl
            -- unsupported
            · rename_i hft
              rw [tagOf_eq _ _ hft (by decide)]
              rfl
            -- default
            · rfl
          | none => simp [rollupOk] at h
          | bool b => simp [rollupOk] at h
          | int n => simp [rollupOk] at h
          | float r => simp [rollupOk] at h
          | str s => simp [rollupOk] at h
          | list ys => simp [rollupOk] at h
      -- relation
      · rename_i heq
        rw [heq] at h
        simp only [] at h
        cases hf : dictFind kvs "relation" with
        | none => rfl
        | some rel =>
          rw [hf] at h
          simp only [relationOk] at h
          simp only [Option.getD_some]
          cases hr : pyTruthy rel with
          | false => rfl
          | true =>
            rw [hr] at h
            simp only [Bool.not_true, Bool.false_or] at h
            cases rel with
            | dict rkv =>
              simp only [] at h
              simp only [pyGetD]
              cases hid : dictFind rkv "id" with
              | none => rfl
              | some i =>
                rw [hid] at h
                simp only [strWhenPresent] at h
                cases i with
                | str s => rfl
                | none => simp [isStrVal] at h
                | bool b => simp [isStrVal] at h
                | int n => simp [isStrVal] at h
                | float r => simp [isStrVal] at h
                | list ys => simp [isStrVal] at h
                | dict kv => simp [isStrVal] at h
            | none => simp at h
            | bool b => simp at h
            | int n => simp at h
            | float r => simp at h
            | str s => simp at h
            | list ys => simp at h
      -- status
      · rename_i heq
        rw [heq] at h
        simp only [] at h
        cases hf : dictFind kvs "status" with
        | none => rfl
        | some w =>
          rw [hf] at h
          cases w with
          | dict wkv =>
            simp only [wrapperOk] at h
            simp only [Option.getD_some, pyGetD]
            cases hp : dictFind wkv "name" with
            | none => rfl
            | some x =>
              rw [hp] at h
              simp only [strWhenPresent] at h
              cases x with
              | str s => rfl
              | none => simp [isStrVal] at h
              | bool b => simp [isStrVal] at h
              | int n => simp [isStrVal] at h
              | float r => simp [isStrVal] at h
              | list ys => simp [isStrVal] at h
              | dict kv => simp [isStrVal] at h
          | none => simp [wrapperOk] at h
          | bool b => simp [wrapperOk] at h
          | int n => simp [wrapperOk] at h
          | float r => simp [wrapperOk] at h
          | str s => simp [wrapperOk] at h
          | list ys => simp [wrapperOk] at h
      -- button
      · rename_i heq
        rw [heq] at h
        simp only [] at h
        cases hf : dictFind kvs "button" with
        | none => rfl
        | some w =>
          rw [hf] at h
          cases w with
          | dict wkv =>
            simp only [wrapperOk] at h
            simp only [Option.getD_some, pyGetD]
            cases hp : dictFind wkv "name" with
            | none => rfl
            | some x =>
              rw [hp] at h
              simp only [strWhenPresent] at h
              cases x with
              | str s => rfl
              | none => simp [isStrVal] at h
              | bool b => simp [isStrVal] at h
              | int n => simp [isStrVal] at h
              | float r => simp [isStrVal] at h
              | list ys => simp [isStrVal] at h
              | dict kv => simp [isStrVal] at h
          | none => simp [wrapperOk] at h
          | bool b => simp [wrapperOk] at h
          | int n => simp [wrapperOk] at h
          | float r => simp [wrapperOk] at h
          | str s => simp [wrapperOk] at h
          | list ys => simp [wrapperOk] at h
      -- unique_id
      · rename_i heq
        rw [heq] at h
        simp only [] at h
        cases hf : dictFind kvs "unique_id" with
        | none => rfl
        | some u =>
          rw [hf] at h
          simp only [dictWhenPresent] at h
          cases u with
          | dict ukv => rfl
          | none => simp [isDict] at h
          | bool b => simp [isDict] at h
          | int n => simp [isDict] at h
          | float r => simp [isDict] at h
          | str s => simp [isDict] at h
          | list ys => simp [isDict] at h
      -- verification
      · rename_i heq
        rw [heq] at h
        simp only [] at h
        cases hf : dictFind kvs "verification" with
        | none => rfl
        | some w =>
          rw [hf] at h
          cases w with
          | dict wkv =>
            simp only [wrapperOk] at h
            simp only [Option.getD_some, pyGetD]
            cases hp : dictFind wkv "state" with
            | none => rfl
            | some x =>
              rw [hp] at h
              simp only [strWhenPresent] at h
              cases x with
              | str s => rfl
              | none => simp [isStrVal] at h
              | bool b => simp [isStrVal] at h
              | int n => simp [isStrVal] at h
              | float r => simp [isStrVal] at h
              | list ys => simp [isStrVal] at h
              | dict kv => simp [isStrVal] at h
          | none => simp [wrapperOk] at h
          | bool b => simp [wrapperOk] at h
          | int n => simp [wrapperOk] at h
          | float r => simp [wrapperOk] at h
          | str s => simp [wrapperOk] at h
          | list ys => simp [wrapperOk] at h
      -- default (unrecognized tag)
      · rfl
  · intro kvs tag htype htag
    unfold extract_property_item_value_to_string
    simp only [pyGetD, ok_bind, htype, Option.getD_some]
    simp only [recognizedReadTags, List.mem_cons, List.not_mem_nil,
      or_false] at htag
    push_neg at htag
    obtain ⟨h1, h2, h3, h4, h5, h6, h7, h8, h9, h10, h11, h12, h13, h14,
      h15, h16, h17, h18, h19, h20, h21, h22, h23⟩ := htag
    simp [tagOf, h1, h2, h3, h4, h5, h6, h7, h8, h9, h10, h11, h12, h13,
      h14, h15, h16, h17, h18, h19, h20, h21, h22, h23]
    rfl

theorem extract_wf_total_string_witness :
    isOkStr (extract_property_item_value_to_string
      (.dict [("type", .str "date"),
        ("date", .dict [("start", .str "2024-01-02")])])) = true ∧
    extract_property_item_value_to_string
      (.dict [("type", .str "frobnicate"), ("frobnicate", .int 5)]) =
      .ok (.str "") :=
  ⟨extract_wf_total_string.1 _ rfl,
   extract_wf_total_string.2 _ "frobnicate" rfl (by decide)⟩

end YtSummarizer
